import Mathlib

/-!
# Dashboard template service

A shallow embedding of `rest/service/dashboardTemplate.go` together with a
sequential model of the relational store the service talks to through gorm.

* Every gorm call of the Go code is one `Stmt`, executed atomically by
  `DB.exec`.  A statement either runs (its effect is applied to the table) or
  fails with an error, in which case the table is left as it was and
  `RowsAffected` is `0`.
* Each service function takes a fault schedule `fail : Nat → Option Error`:
  `fail k` is the error (if any) with which the `k`-th statement issued by the
  call fails.  Every function returns the Go return values, the resulting
  store and the list of statements it issued.
* Declarations of `models` and `util` that the service uses but that are not
  part of the file are either parameters (`GridItem.IsValid`,
  `util.BaseTemplates`) or are modelled from the specification.
-/

namespace DashboardTemplateService

/-! ## Errors -/

/-- Go `error` values seen by the service.  `other` stands for any error that
is not one of the two sentinels (a store failure, a grid validation failure). -/
inductive Error where
  | ErrRecordNotFound
  | ErrNotAuthorized
  | other (code : Nat)
deriving DecidableEq, Repr

/-! ## Data model -/

/-- Modelled from the spec: `models.GridItem` (its declaration is not in the
file).  A placed widget: widget identifier, x/y coordinates, width/height. -/
structure GridItem where
  ID : String
  X : Int
  Y : Int
  Width : Int
  Height : Int
deriving DecidableEq, Repr

/-- A `datatypes.JSON` column of the template config, the byte slice the code
reads with `configs.Field(i).Bytes()` and decodes with `json.Unmarshal`.
`none` is the nil slice (the Go zero value, a field absent from the input);
`some l` is the text of a JSON array denoting the grid items `l`, so
`some []` is the text of the empty array. -/
abbrev JSON := Option (List GridItem)

/-- The result of `json.Unmarshal(bytes, &items)` on a nil `items`: decoding
the nil slice fails and leaves `items` empty. -/
def unmarshalItems (j : JSON) : List GridItem :=
  j.getD []

/-- Modelled from the spec: the layout-size classes, one per field of
`models.TemplateConfig` (the declaration is not in the file; the spec names
"sm", "md" and "lg"). -/
inductive GridSizes where
  | sm
  | md
  | lg
deriving DecidableEq, Repr

/-- Modelled from the spec: `models.TemplateConfig`, one JSON column per
layout-size class. -/
structure TemplateConfig where
  Sm : JSON
  Md : JSON
  Lg : JSON
deriving DecidableEq, Repr

/-- The fields of `TemplateConfig` in declaration order, as enumerated by
`for i := 0; i < configs.NumField(); i++`. -/
def templateConfigFields : List GridSizes :=
  [GridSizes.sm, GridSizes.md, GridSizes.lg]

/-- Reflection accessor `configs.Field(i)`. -/
def TemplateConfig.Field (tc : TemplateConfig) : GridSizes → JSON
  | GridSizes.sm => tc.Sm
  | GridSizes.md => tc.Md
  | GridSizes.lg => tc.Lg

/-- Modelled from the spec: `TemplateConfig.SetLayoutSizeItems` (not in the
file) replaces the items of the named field and of no other field. -/
def TemplateConfig.SetLayoutSizeItems (tc : TemplateConfig) (f : GridSizes)
    (items : List GridItem) : TemplateConfig :=
  match f with
  | GridSizes.sm => { tc with Sm := some items }
  | GridSizes.md => { tc with Md := some items }
  | GridSizes.lg => { tc with Lg := some items }

/-- The grid items a config holds for a layout-size class. -/
def TemplateConfig.items (tc : TemplateConfig) (f : GridSizes) : List GridItem :=
  unmarshalItems (tc.Field f)

/-- Type `models.DashboardTemplateBase`: template-type name and display name. -/
structure DashboardTemplateBase where
  Name : String
  DisplayName : String
deriving DecidableEq, Repr

/-- Type `models.DashboardTemplate`: a row of the table.  `ID` is the
surrogate primary key; `0` is the Go zero value of a struct not yet stored. -/
structure DashboardTemplate where
  ID : Nat
  UserIdentityID : Nat
  Default : Bool
  TemplateBase : DashboardTemplateBase
  TemplateConfig : TemplateConfig
deriving DecidableEq, Repr

/-- Type `models.BaseDashboardTemplate`: an entry of the base template
registry. -/
structure BaseDashboardTemplate where
  Name : String
  DisplayName : String
  TemplateConfig : TemplateConfig
deriving DecidableEq, Repr

/-- The Go zero value of `models.TemplateConfig`. -/
def zeroTemplateConfig : TemplateConfig :=
  ⟨none, none, none⟩

/-- The Go zero value of `models.DashboardTemplate` (`var t models.DashboardTemplate`). -/
def zeroDashboardTemplate : DashboardTemplate :=
  ⟨0, 0, false, ⟨"", ""⟩, zeroTemplateConfig⟩

/-- The Go zero value of `models.BaseDashboardTemplate`. -/
def zeroBaseDashboardTemplate : BaseDashboardTemplate :=
  ⟨"", "", zeroTemplateConfig⟩

/-- The registry `util.BaseTemplates`, a Go map keyed by template type; it is
a parameter of the functions that read it. -/
abbrev Registry := String → Option BaseDashboardTemplate

/-- Go map indexing `util.BaseTemplates[dashboard]`: the zero value when the
key is absent. -/
def Registry.lookup (reg : Registry) (dashboard : String) : BaseDashboardTemplate :=
  (reg dashboard).getD zeroBaseDashboardTemplate

/-- The method `GridItem.IsValid(variant)`, a parameter: `none` is a nil
error. -/
abbrev Validator := GridItem → GridSizes → Option Error

/-! ## The store -/

/-- The table of dashboard templates with its auto-increment counter. -/
structure DB where
  rows : List DashboardTemplate
  nextID : Nat
deriving DecidableEq, Repr

/-- The statements the service issues through gorm. -/
inductive Stmt where
  /-- Query `DB.Where("user_identity_id = ?", userId).Find(&rows)`. -/
  | FindWhereUser (userId : Nat)
  /-- Query `DB.Where("user_identity_id = ? AND name = ?", userId, name).Find(&rows)`. -/
  | FindWhereUserName (userId : Nat) (name : String)
  /-- Query `DB.Find(&row, id)`. -/
  | FindByID (id : Nat)
  /-- Insert `DB.Create(&row)`. -/
  | Create (row : DashboardTemplate)
  /-- Update `DB.Model(&model).Updates(value)` with a struct `value`. -/
  | Updates (model : DashboardTemplate) (value : DashboardTemplate)
  /-- Bulk update `DB.Model(T{}).Where("user_identity_id = ? AND name = ?", ...).Update("default", v)`. -/
  | UpdateDefaultWhereUserName (userId : Nat) (name : String) (value : Bool)
  /-- Removal `DB.Delete(&model)`. -/
  | Delete (model : DashboardTemplate)
deriving DecidableEq, Repr

/-- The outcome of one statement: the gorm result (`RowsAffected`, `Error`),
the destination it filled, and the store after it.  `dest` holds the rows
scanned by a query, the struct handed to `Create` (with the id the store
assigned), or the model handed to `Updates` (gorm assigns the written fields
to the model it was given a pointer to). -/
structure Tx where
  dest : List DashboardTemplate
  RowsAffected : Nat
  Error : Option Error
  db : DB
deriving DecidableEq, Repr

/-- What gorm `Updates` does with a struct value: it assigns exactly the
fields of `v` that are not the Go zero value (`0`, `false`, `""`, a nil byte
slice) and leaves every other column of `r` alone. -/
def mergeNonZero (r v : DashboardTemplate) : DashboardTemplate :=
  { ID := if v.ID = 0 then r.ID else v.ID
    UserIdentityID := if v.UserIdentityID = 0 then r.UserIdentityID else v.UserIdentityID
    Default := if v.Default = false then r.Default else v.Default
    TemplateBase :=
      { Name := if v.TemplateBase.Name = "" then r.TemplateBase.Name else v.TemplateBase.Name
        DisplayName :=
          if v.TemplateBase.DisplayName = "" then r.TemplateBase.DisplayName
          else v.TemplateBase.DisplayName }
    TemplateConfig :=
      { Sm := if v.TemplateConfig.Sm = none then r.TemplateConfig.Sm else v.TemplateConfig.Sm
        Md := if v.TemplateConfig.Md = none then r.TemplateConfig.Md else v.TemplateConfig.Md
        Lg := if v.TemplateConfig.Lg = none then r.TemplateConfig.Lg else v.TemplateConfig.Lg } }

/-- Row predicate of `WHERE user_identity_id = ? AND name = ?`. -/
def matchesUserName (userId : Nat) (name : String) (r : DashboardTemplate) : Bool :=
  decide (r.UserIdentityID = userId) && decide (r.TemplateBase.Name = name)

/-- Effect and result of a statement that runs without a store failure.
A query scans the matching rows in table order; `Create` stores the struct
under the next id of the auto-increment counter (the service only creates
structs whose `ID` is zero); `Updates` and `Delete` act on the rows whose id
is the id of the model; a deleted row is no longer seen by any later
statement. -/
def DB.run (db : DB) : Stmt → Tx
  | Stmt.FindWhereUser userId =>
      let rs := db.rows.filter (fun r => decide (r.UserIdentityID = userId))
      ⟨rs, rs.length, none, db⟩
  | Stmt.FindWhereUserName userId name =>
      let rs := db.rows.filter (matchesUserName userId name)
      ⟨rs, rs.length, none, db⟩
  | Stmt.FindByID id =>
      let rs := db.rows.filter (fun r => decide (r.ID = id))
      ⟨rs, rs.length, none, db⟩
  | Stmt.Create row =>
      let stored := { row with ID := db.nextID }
      ⟨[stored], 1, none, ⟨db.rows ++ [stored], db.nextID + 1⟩⟩
  | Stmt.Updates model value =>
      let hit := fun (r : DashboardTemplate) => decide (r.ID = model.ID)
      ⟨[mergeNonZero model value], (db.rows.filter hit).length, none,
        ⟨db.rows.map (fun r => if hit r then mergeNonZero r value else r), db.nextID⟩⟩
  | Stmt.UpdateDefaultWhereUserName userId name value =>
      let hit := matchesUserName userId name
      ⟨[], (db.rows.filter hit).length, none,
        ⟨db.rows.map (fun r => if hit r then { r with Default := value } else r), db.nextID⟩⟩
  | Stmt.Delete model =>
      let hit := fun (r : DashboardTemplate) => decide (r.ID = model.ID)
      ⟨[model], (db.rows.filter hit).length, none,
        ⟨db.rows.filter (fun r => !hit r), db.nextID⟩⟩

/-- The destination of a statement that fails: what the Go variable holds
after the call.  A struct handed to `Create` or `Delete` is as it was; the
model handed to `Updates` already carries the written fields, which gorm
assigns to it before it executes the statement. -/
def Stmt.dest0 : Stmt → List DashboardTemplate
  | Stmt.Create row => [row]
  | Stmt.Updates model value => [mergeNonZero model value]
  | Stmt.Delete model => [model]
  | _ => []

/-- One atomic statement under a fault: a failing statement reports its
error, affects no row and leaves the store as it was. -/
def DB.exec (db : DB) (fault : Option Error) (s : Stmt) : Tx :=
  match fault with
  | some e => ⟨s.dest0, 0, some e, db⟩
  | none => db.run s

/-- What a service function hands back: the Go return value and error, the
store after the call, and the statements the call issued, in order. -/
structure Result (α : Type) where
  value : α
  err : Option Error
  db : DB
  log : List Stmt

/-! ## The service (`rest/service/dashboardTemplate.go`) -/

/-- Function `GetAllUserDashboardTemplates`. -/
def GetAllUserDashboardTemplates (fail : Nat → Option Error) (db : DB) (userId : Nat) :
    Result (List DashboardTemplate) :=
  let s0 := Stmt.FindWhereUser userId
  let result := db.exec (fail 0) s0
  ⟨result.dest, result.Error, result.db, [s0]⟩

/-- Function `GetUserDashboardTemplate`. -/
def GetUserDashboardTemplate (fail : Nat → Option Error) (reg : Registry) (db : DB)
    (userId : Nat) (dashboard : String) : Result (List DashboardTemplate) :=
  let templateBase : DashboardTemplateBase :=
    { Name := dashboard, DisplayName := (reg.lookup dashboard).DisplayName }
  let s0 := Stmt.FindWhereUserName userId dashboard
  let result := db.exec (fail 0) s0
  let userDashboardTemplates := result.dest
  if result.RowsAffected = 0 then
    if result.RowsAffected = 0 ∧ result.Error ≠ none then
      ⟨userDashboardTemplates, result.Error, result.db, [s0]⟩
    else
      let baseTemplate := reg.lookup dashboard
      let dashboardTemplate : DashboardTemplate :=
        { ID := 0
          UserIdentityID := userId
          Default := true
          TemplateBase := templateBase
          TemplateConfig := baseTemplate.TemplateConfig }
      let s1 := Stmt.Create dashboardTemplate
      let result1 := result.db.exec (fail 1) s1
      ⟨userDashboardTemplates ++ result1.dest, result1.Error, result1.db, [s0, s1]⟩
  else
    ⟨userDashboardTemplates, result.Error, result.db, [s0]⟩

/-- Function `GetDashboardTemplate`. -/
def GetDashboardTemplate (fail : Nat → Option Error) (reg : Registry) (db : DB)
    (userId : Nat) (dashboard : String) : Result (List DashboardTemplate) :=
  if dashboard = "" then
    GetAllUserDashboardTemplates fail db userId
  else
    GetUserDashboardTemplate fail reg db userId dashboard

/-- The two coordinate assignments at the head of the item loop of
`UpdateDashboardTemplate` (`if gi.Y == 0 { gi.Y = 0 }`, likewise `X`). -/
def initCoordinates (gi : GridItem) : GridItem :=
  let gi := if gi.Y = 0 then { gi with Y := 0 } else gi
  if gi.X = 0 then { gi with X := 0 } else gi

/-- The inner loop `for _, gi := range items` of `UpdateDashboardTemplate`:
the error of the first item the validator rejects, `none` when the loop runs
to its end. -/
def validateItems (isValid : Validator) (layoutSize : GridSizes) :
    List GridItem → Option Error
  | [] => none
  | gi :: rest =>
      match isValid (initCoordinates gi) layoutSize with
      | some e => some e
      | none => validateItems isValid layoutSize rest

/-- The outer loop `for i := 0; i < configs.NumField(); i++` of
`UpdateDashboardTemplate` over the fields still to visit.  `configs` is the
reflected copy of the input config taken before the loop; `tc` is
`dashboardTemplate.TemplateConfig`, which the loop body rewrites.  The result
is the validation error that ends the function or the config after the
loop. -/
def updateLoop (isValid : Validator) (configs : TemplateConfig) :
    List GridSizes → TemplateConfig → Except Error TemplateConfig
  | [], tc => Except.ok tc
  | f :: rest, tc =>
      let items := unmarshalItems (configs.Field f)
      match validateItems isValid f items with
      | some e => Except.error e
      | none =>
          if items.length > 0 then
            updateLoop isValid configs rest (tc.SetLayoutSizeItems f items)
          else
            updateLoop isValid configs rest tc

/-- Function `UpdateDashboardTemplate`. -/
def UpdateDashboardTemplate (fail : Nat → Option Error) (isValid : Validator) (db : DB)
    (templateId userId : Nat) (dashboardTemplate : DashboardTemplate) :
    Result DashboardTemplate :=
  let s0 := Stmt.FindByID templateId
  let result := db.exec (fail 0) s0
  let userDashboardTemplate := result.dest.headD zeroDashboardTemplate
  if result.RowsAffected = 0 ∨ result.Error ≠ none then
    ⟨userDashboardTemplate, some Error.ErrRecordNotFound, result.db, [s0]⟩
  else if userDashboardTemplate.UserIdentityID ≠ userId then
    ⟨userDashboardTemplate, some Error.ErrNotAuthorized, result.db, [s0]⟩
  else
    match updateLoop isValid dashboardTemplate.TemplateConfig templateConfigFields
        dashboardTemplate.TemplateConfig with
    | Except.error e => ⟨userDashboardTemplate, some e, result.db, [s0]⟩
    | Except.ok tc =>
        let s1 := Stmt.Updates userDashboardTemplate
          { zeroDashboardTemplate with TemplateConfig := tc }
        let result1 := result.db.exec (fail 1) s1
        ⟨result1.dest.headD userDashboardTemplate, none, result1.db, [s0, s1]⟩

/-- The method `AvailableTemplates.IsValid`, a parameter: `none` is a nil
error. -/
abbrev TypeValidator := String → Option Error

/-- Function `GetDashboardTemplateBase`. -/
def GetDashboardTemplateBase (typeIsValid : TypeValidator) (reg : Registry)
    (dashboard : String) : BaseDashboardTemplate × Option Error :=
  match typeIsValid dashboard with
  | some err => (zeroBaseDashboardTemplate, some err)
  | none => (reg.lookup dashboard, none)

/-- Function `CopyDashboardTemplate`. -/
def CopyDashboardTemplate (fail : Nat → Option Error) (db : DB)
    (accountId dashboardTemplateId : Nat) : Result DashboardTemplate :=
  let s0 := Stmt.FindByID dashboardTemplateId
  let result := db.exec (fail 0) s0
  let dashboardTemplate := result.dest.headD zeroDashboardTemplate
  if result.RowsAffected = 0 ∨ result.Error ≠ none then
    ⟨dashboardTemplate, some Error.ErrRecordNotFound, result.db, [s0]⟩
  else
    let newDashboardTemplate : DashboardTemplate :=
      { zeroDashboardTemplate with
        UserIdentityID := accountId
        TemplateBase := dashboardTemplate.TemplateBase
        TemplateConfig := dashboardTemplate.TemplateConfig }
    let s1 := Stmt.Create newDashboardTemplate
    let result1 := result.db.exec (fail 1) s1
    ⟨result1.dest.headD newDashboardTemplate, result1.Error, result1.db, [s0, s1]⟩

/-- Function `DeleteTemplate`.  The value returned after the removal is
`result.Error` of the lookup, which is nil once the first guard is passed. -/
def DeleteTemplate (fail : Nat → Option Error) (db : DB)
    (accountId dashboardTemplateId : Nat) : Result Unit :=
  let s0 := Stmt.FindByID dashboardTemplateId
  let result := db.exec (fail 0) s0
  let dashboardTemplate := result.dest.headD zeroDashboardTemplate
  if result.RowsAffected = 0 ∨ result.Error ≠ none then
    ⟨(), some Error.ErrRecordNotFound, result.db, [s0]⟩
  else if dashboardTemplate.UserIdentityID ≠ accountId then
    ⟨(), some Error.ErrNotAuthorized, result.db, [s0]⟩
  else
    let s1 := Stmt.Delete dashboardTemplate
    let result1 := result.db.exec (fail 1) s1
    ⟨(), result.Error, result1.db, [s0, s1]⟩

/-- Function `ChangeDefaultTemplate`. -/
def ChangeDefaultTemplate (fail : Nat → Option Error) (db : DB)
    (accountId dashboardId : Nat) : Result DashboardTemplate :=
  let s0 := Stmt.FindByID dashboardId
  let result := db.exec (fail 0) s0
  let dashboardTemplate := result.dest.headD zeroDashboardTemplate
  if result.RowsAffected = 0 ∨ result.Error ≠ none then
    ⟨dashboardTemplate, some Error.ErrRecordNotFound, result.db, [s0]⟩
  else if dashboardTemplate.UserIdentityID ≠ accountId then
    ⟨dashboardTemplate, some Error.ErrNotAuthorized, result.db, [s0]⟩
  else
    let dashboardType := dashboardTemplate.TemplateBase.Name
    let s1 := Stmt.UpdateDefaultWhereUserName accountId dashboardType false
    let result1 := result.db.exec (fail 1) s1
    if result1.Error ≠ none then
      ⟨dashboardTemplate, result1.Error, result1.db, [s0, s1]⟩
    else
      let s2 := Stmt.Updates dashboardTemplate { zeroDashboardTemplate with Default := true }
      let result2 := result1.db.exec (fail 2) s2
      ⟨result2.dest.headD dashboardTemplate, result2.Error, result2.db, [s0, s1, s2]⟩

/-! ## Store predicates -/

/-- Primary-key well-formedness of the table: ids are non-zero, pairwise
distinct, and below the auto-increment counter. -/
def DB.WF (db : DB) : Prop :=
  (db.rows.map (fun r => r.ID)).Nodup ∧ 0 < db.nextID ∧
    ∀ r ∈ db.rows, 0 < r.ID ∧ r.ID < db.nextID

/-- The rows of the group `(userId, name)` whose default flag is set. -/
def DB.defaults (db : DB) (userId : Nat) (name : String) : List DashboardTemplate :=
  db.rows.filter (fun r => matchesUserName userId name r && r.Default)

/-- The invariant of the data model: every (user id, template-type name)
group has at most one row with `default = true`. -/
def DB.SingleDefault (db : DB) : Prop :=
  ∀ (userId : Nat) (name : String), (db.defaults userId name).length ≤ 1

/-- A store without faults. -/
def noFault : Nat → Option Error :=
  fun _ => none

/-- The schedule in which exactly the `k`-th statement of a call fails, with
error `e`. -/
def failAt (k : Nat) (e : Error) : Nat → Option Error :=
  fun i => if i = k then some e else none

/-! ## Sample data -/

/-- A grid item used in the examples. -/
def sampleItem : GridItem :=
  ⟨"widget", 0, 0, 1, 1⟩

/-- A stored template of user 7. -/
def sampleRow : DashboardTemplate :=
  ⟨1, 7, true, ⟨"landingPage", "Landing page"⟩, ⟨some [sampleItem], none, none⟩⟩

/-- A store holding `sampleRow` alone. -/
def sampleDB : DB :=
  ⟨[sampleRow], 2⟩

/-- A validator that accepts every item. -/
def acceptAll : Validator :=
  fun _ _ => none

/-- A validator that accepts exactly the items of positive width and height. -/
def positiveSize : Validator :=
  fun gi _ => if 0 < gi.Width ∧ 0 < gi.Height then none else some (Error.other 400)

/-- A registry with the single entry "landingPage". -/
def sampleRegistry : Registry :=
  fun k =>
    if k = "landingPage" then
      some ⟨"landingPage", "Landing page", ⟨some [sampleItem], some [sampleItem], none⟩⟩
    else none

/-- A store with no row. -/
def emptyDB : DB :=
  ⟨[], 1⟩

/-- The template `GetUserDashboardTemplate` builds for a user without a row of
the requested type, before the store assigns its id. -/
def seedTemplate (reg : Registry) (userId : Nat) (dashboard : String) : DashboardTemplate :=
  { ID := 0
    UserIdentityID := userId
    Default := true
    TemplateBase := { Name := dashboard, DisplayName := (reg.lookup dashboard).DisplayName }
    TemplateConfig := (reg.lookup dashboard).TemplateConfig }

/-- The row a successful default switch leaves in place of `r`: inside the
group `(accountId, name)` the flag is set on the row with id `id` and cleared
on every other row; outside the group nothing changes. -/
def switchedRow (accountId : Nat) (name : String) (id : Nat) (r : DashboardTemplate) :
    DashboardTemplate :=
  if matchesUserName accountId name r then { r with Default := decide (r.ID = id) } else r

/-- The row the bulk statement of `ChangeDefaultTemplate` leaves in place of
`r`: the flag is cleared inside the group `(accountId, name)`. -/
def clearedRow (accountId : Nat) (name : String) (r : DashboardTemplate) : DashboardTemplate :=
  if matchesUserName accountId name r then { r with Default := false } else r

/-- A store with two "landingPage" rows of user 7 (row 1 is the default) and
one row of user 8. -/
def sampleDB2 : DB :=
  ⟨[sampleRow,
    ⟨2, 7, false, ⟨"landingPage", "Landing page"⟩, ⟨none, some [sampleItem], none⟩⟩,
    ⟨3, 8, true, ⟨"landingPage", "Landing page"⟩, ⟨none, none, none⟩⟩], 4⟩

/-! ## Lemmas about the store -/

theorem exec_none (db : DB) (s : Stmt) : db.exec none s = db.run s := rfl

theorem exec_some (db : DB) (e : Error) (s : Stmt) :
    db.exec (some e) s = ⟨s.dest0, 0, some e, db⟩ := rfl

/-- In a list whose keys are pairwise distinct, selecting by the key of a
member returns that member alone. -/
theorem filter_key_eq_singleton {α β : Type} [DecidableEq β] (f : α → β) :
    ∀ (l : List α) (t : α), (l.map f).Nodup → t ∈ l →
      l.filter (fun r => decide (f r = f t)) = [t]
  | [], _, _, ht => by simp at ht
  | a :: l, t, hnd, ht => by
      rw [List.map_cons, List.nodup_cons] at hnd
      rcases List.mem_cons.mp ht with h | h
      · subst h
        have hnone : l.filter (fun r => decide (f r = f t)) = [] := by
          rw [List.filter_eq_nil_iff]
          intro r hr hdec
          have hfr : f r = f t := of_decide_eq_true hdec
          exact hnd.1 (hfr ▸ List.mem_map_of_mem f hr)
        simp [List.filter_cons, hnone]
      · have hne : f a ≠ f t := fun heq => hnd.1 (heq ▸ List.mem_map_of_mem f h)
        simp [List.filter_cons, hne, filter_key_eq_singleton f l t hnd.2 h]

/-- Looking a stored row up by its id returns exactly that row. -/
theorem find_by_id (db : DB) (t : DashboardTemplate) (hwf : db.WF) (ht : t ∈ db.rows) :
    db.rows.filter (fun r => decide (r.ID = t.ID)) = [t] :=
  filter_key_eq_singleton (fun r => r.ID) db.rows t hwf.1 ht

/-- Looking up an id no row carries returns nothing. -/
theorem find_by_id_absent (db : DB) (id : Nat) (h : ∀ r ∈ db.rows, r.ID ≠ id) :
    db.rows.filter (fun r => decide (r.ID = id)) = [] := by
  rw [List.filter_eq_nil_iff]
  intro r hr hdec
  exact h r hr (of_decide_eq_true hdec)

/-! ## Ownership -/

/-- Claim C6, amended.  For a stored template `t` and a caller id different
from the owner id of `t`, each of `UpdateDashboardTemplate`, `DeleteTemplate`
and `ChangeDefaultTemplate` leaves the store exactly as it was (no row
created, changed or deleted) and issues the lookup and no other statement,
whether or not the lookup fails; and when the lookup returns no error each
of them returns `util.ErrNotAuthorized`. -/
theorem non_owner_is_rejected (fail : Nat → Option Error) (isValid : Validator) (db : DB)
    (t : DashboardTemplate) (callerId : Nat) (input : DashboardTemplate)
    (hwf : db.WF) (ht : t ∈ db.rows) (hown : t.UserIdentityID ≠ callerId) :
    ((UpdateDashboardTemplate fail isValid db t.ID callerId input).db = db
      ∧ (UpdateDashboardTemplate fail isValid db t.ID callerId input).log
        = [Stmt.FindByID t.ID]
      ∧ (fail 0 = none →
          (UpdateDashboardTemplate fail isValid db t.ID callerId input).err
            = some Error.ErrNotAuthorized))
    ∧ ((DeleteTemplate fail db callerId t.ID).db = db
      ∧ (DeleteTemplate fail db callerId t.ID).log = [Stmt.FindByID t.ID]
      ∧ (fail 0 = none →
          (DeleteTemplate fail db callerId t.ID).err = some Error.ErrNotAuthorized))
    ∧ ((ChangeDefaultTemplate fail db callerId t.ID).db = db
      ∧ (ChangeDefaultTemplate fail db callerId t.ID).log = [Stmt.FindByID t.ID]
      ∧ (fail 0 = none →
          (ChangeDefaultTemplate fail db callerId t.ID).err = some Error.ErrNotAuthorized)) := by
  have hf := find_by_id db t hwf ht
  cases hq : fail 0 with
  | some e =>
      refine ⟨?_, ?_, ?_⟩
      · simp [UpdateDashboardTemplate, hq, exec_some]
      · simp [DeleteTemplate, hq, exec_some]
      · simp [ChangeDefaultTemplate, hq, exec_some]
  | none =>
      refine ⟨?_, ?_, ?_⟩
      · simp [UpdateDashboardTemplate, hq, exec_none, DB.run, hf, hown]
      · simp [DeleteTemplate, hq, exec_none, DB.run, hf, hown]
      · simp [ChangeDefaultTemplate, hq, exec_none, DB.run, hf, hown]

theorem sampleDB_wf : sampleDB.WF := by
  unfold DB.WF sampleDB
  decide

theorem sampleDB2_wf : sampleDB2.WF := by
  unfold DB.WF sampleDB2
  decide

/-- Claim C6, as stated, fails when the lookup fails.  Row 1 exists and
belongs to user 7; user 8 calls the three operations and the lookup meets a
store error: each call returns `gorm.ErrRecordNotFound`, not
`util.ErrNotAuthorized`. -/
theorem non_owner_lookup_failure :
    sampleRow ∈ sampleDB.rows
    ∧ sampleRow.UserIdentityID ≠ 8
    ∧ (UpdateDashboardTemplate (failAt 0 (Error.other 500)) acceptAll sampleDB sampleRow.ID 8
        sampleRow).err = some Error.ErrRecordNotFound
    ∧ (DeleteTemplate (failAt 0 (Error.other 500)) sampleDB 8 sampleRow.ID).err
        = some Error.ErrRecordNotFound
    ∧ (ChangeDefaultTemplate (failAt 0 (Error.other 500)) sampleDB 8 sampleRow.ID).err
        = some Error.ErrRecordNotFound
    ∧ some Error.ErrRecordNotFound ≠ some Error.ErrNotAuthorized := by
  decide

/-- Witness of the amended claim C6 on `sampleDB`: user 8 is not the owner of
row 1. -/
theorem non_owner_is_rejected_witness :
    (UpdateDashboardTemplate noFault acceptAll sampleDB sampleRow.ID 8 sampleRow).err
        = some Error.ErrNotAuthorized
      ∧ (DeleteTemplate noFault sampleDB 8 sampleRow.ID).db = sampleDB
      ∧ (ChangeDefaultTemplate noFault sampleDB 8 sampleRow.ID).log
        = [Stmt.FindByID sampleRow.ID] :=
  have h := non_owner_is_rejected noFault acceptAll sampleDB sampleRow 8 sampleRow
    sampleDB_wf (by decide) (by decide)
  ⟨h.1.2.2 rfl, h.2.1.1, h.2.2.2.1⟩

/-! ## Validation and the update loop -/

theorem initCoordinates_eq (gi : GridItem) : initCoordinates gi = gi := by
  cases gi with
  | mk i x y w h =>
    by_cases hy : y = 0 <;> by_cases hx : x = 0 <;> simp [initCoordinates, hy, hx]

/-- The item loop ends with an error exactly when it meets a rejected item,
and the error is the one the validator gave for such an item. -/
theorem validateItems_eq_some (isValid : Validator) (f : GridSizes) (e : Error) :
    ∀ items : List GridItem, validateItems isValid f items = some e →
      ∃ gi ∈ items, isValid gi f = some e
  | [], h => by simp [validateItems] at h
  | gi :: rest, h => by
      simp only [validateItems, initCoordinates_eq] at h
      cases hv : isValid gi f with
      | some e1 =>
          rw [hv] at h
          exact ⟨gi, List.mem_cons_self _ _, by rw [hv]; exact h⟩
      | none =>
          rw [hv] at h
          obtain ⟨gj, hmem, hgj⟩ := validateItems_eq_some isValid f e rest h
          exact ⟨gj, List.mem_cons_of_mem _ hmem, hgj⟩

theorem validateItems_eq_none (isValid : Validator) (f : GridSizes) :
    ∀ items : List GridItem, (∀ gi ∈ items, isValid gi f = none) →
      validateItems isValid f items = none
  | [], _ => rfl
  | gi :: rest, h => by
      have h1 : isValid gi f = none := h gi (List.mem_cons_self _ _)
      simp only [validateItems, initCoordinates_eq, h1]
      exact validateItems_eq_none isValid f rest
        (fun gj hj => h gj (List.mem_cons_of_mem _ hj))

theorem validateItems_rejects (isValid : Validator) (f : GridSizes) :
    ∀ items : List GridItem, (∃ gi ∈ items, isValid gi f ≠ none) →
      ∃ e, validateItems isValid f items = some e
  | [], h => by simp at h
  | gi :: rest, h => by
      simp only [validateItems, initCoordinates_eq]
      cases hv : isValid gi f with
      | some e1 => exact ⟨e1, rfl⟩
      | none =>
          obtain ⟨gj, hmem, hgj⟩ := h
          rcases List.mem_cons.mp hmem with h1 | h1
          · subst h1
            exact absurd hv hgj
          · exact validateItems_rejects isValid f rest ⟨gj, h1, hgj⟩

/-- When some field still to visit holds a rejected item, the field loop ends
with the validation error of a rejected item of the input. -/
theorem updateLoop_rejects (isValid : Validator) (configs : TemplateConfig) :
    ∀ (fields : List GridSizes) (tc : TemplateConfig),
      (∃ f ∈ fields, ∃ gi ∈ configs.items f, isValid gi f ≠ none) →
      ∃ e f gi, gi ∈ configs.items f ∧ isValid gi f = some e ∧
        updateLoop isValid configs fields tc = Except.error e
  | [], _, h => by simp at h
  | f :: rest, tc, h => by
      simp only [updateLoop]
      cases hv : validateItems isValid f (unmarshalItems (configs.Field f)) with
      | some e =>
          obtain ⟨gi, hmem, hgi⟩ := validateItems_eq_some isValid f e _ hv
          exact ⟨e, f, gi, hmem, hgi, rfl⟩
      | none =>
          have hrest : ∃ g ∈ rest, ∃ gi ∈ configs.items g, isValid gi g ≠ none := by
            obtain ⟨g, hg, gi, hmem, hgi⟩ := h
            rcases List.mem_cons.mp hg with h1 | h1
            · subst h1
              obtain ⟨e, he⟩ := validateItems_rejects isValid g _ ⟨gi, hmem, hgi⟩
              have he2 : validateItems isValid g (unmarshalItems (configs.Field g)) = some e := he
              rw [he2] at hv
              exact absurd hv (by simp)
            · exact ⟨g, h1, gi, hmem, hgi⟩
          by_cases hlen : (unmarshalItems (configs.Field f)).length > 0
          · simp only [hlen, if_true]
            exact updateLoop_rejects isValid configs rest _ hrest
          · simp only [hlen, if_false]
            exact updateLoop_rejects isValid configs rest _ hrest

/-- Rewriting a field with the items it already denotes changes nothing. -/
theorem setLayoutSizeItems_self (tc : TemplateConfig) (f : GridSizes)
    (h : (unmarshalItems (tc.Field f)).length > 0) :
    tc.SetLayoutSizeItems f (unmarshalItems (tc.Field f)) = tc := by
  cases tc with
  | mk sm md lg =>
    cases f <;>
      simp only [TemplateConfig.Field, unmarshalItems, TemplateConfig.SetLayoutSizeItems] at h ⊢
    · cases sm with
      | none => simp at h
      | some l => rfl
    · cases md with
      | none => simp at h
      | some l => rfl
    · cases lg with
      | none => simp at h
      | some l => rfl

/-- When every item of the fields still to visit is valid, the field loop
runs to its end and leaves the input config as it was read. -/
theorem updateLoop_valid (isValid : Validator) (configs : TemplateConfig) :
    ∀ (fields : List GridSizes),
      (∀ f ∈ fields, ∀ gi ∈ configs.items f, isValid gi f = none) →
      updateLoop isValid configs fields configs = Except.ok configs
  | [], _ => rfl
  | f :: rest, h => by
      have hv := validateItems_eq_none isValid f (unmarshalItems (configs.Field f))
        (h f (List.mem_cons_self _ _))
      have hrest := updateLoop_valid isValid configs rest
        (fun g hg => h g (List.mem_cons_of_mem _ hg))
      simp only [updateLoop, hv]
      by_cases hlen : (unmarshalItems (configs.Field f)).length > 0
      · simp only [hlen, if_true, setLayoutSizeItems_self configs f hlen]
        exact hrest
      · simp only [hlen, if_false]
        exact hrest

/-! ## Updating a template config -/

/-- Claim C5, as stated, fails when the lookup fails.  Row 1 is stored and
owned by user 7, who sends a config whose "md" field holds an item the
validator rejects; the lookup meets a store error and the call returns
`gorm.ErrRecordNotFound`, not the validation error. -/
theorem invalid_item_lookup_failure :
    sampleRow ∈ sampleDB.rows
    ∧ (⟨"bad", 0, 0, 0, 1⟩ : GridItem)
        ∈ (⟨some [sampleItem], some [⟨"bad", 0, 0, 0, 1⟩], none⟩ : TemplateConfig).items
            GridSizes.md
    ∧ positiveSize ⟨"bad", 0, 0, 0, 1⟩ GridSizes.md = some (Error.other 400)
    ∧ (UpdateDashboardTemplate (failAt 0 (Error.other 500)) positiveSize sampleDB sampleRow.ID
        sampleRow.UserIdentityID
        ⟨0, 0, false, ⟨"", ""⟩, ⟨some [sampleItem], some [⟨"bad", 0, 0, 0, 1⟩], none⟩⟩).err
      = some Error.ErrRecordNotFound
    ∧ some Error.ErrRecordNotFound ≠ some (Error.other 400) := by
  decide

/-- Claim C5, amended.  For a stored template `t` updated by its owner with an
input config in which some layout-size field holds an item the validator
rejects for that field, whatever the other fields and items of the input
are: `UpdateDashboardTemplate` leaves the store exactly as it was and issues
the lookup and no other statement (no write), whether or not the lookup
fails; and when the lookup returns no error it returns the validation error
of a rejected item of the input. -/
theorem invalid_item_aborts_update (fail : Nat → Option Error) (isValid : Validator) (db : DB)
    (t input : DashboardTemplate) (f : GridSizes) (gi : GridItem)
    (hwf : db.WF) (ht : t ∈ db.rows)
    (hgi : gi ∈ input.TemplateConfig.items f) (hbad : isValid gi f ≠ none) :
    (UpdateDashboardTemplate fail isValid db t.ID t.UserIdentityID input).db = db
    ∧ (UpdateDashboardTemplate fail isValid db t.ID t.UserIdentityID input).log
        = [Stmt.FindByID t.ID]
    ∧ (fail 0 = none →
        ∃ e f1 g1, g1 ∈ input.TemplateConfig.items f1 ∧ isValid g1 f1 = some e ∧
          (UpdateDashboardTemplate fail isValid db t.ID t.UserIdentityID input).err
            = some e) := by
  have hf := find_by_id db t hwf ht
  have hmemf : f ∈ templateConfigFields := by cases f <;> simp [templateConfigFields]
  obtain ⟨e, f1, g1, hg1, hv1, hloop⟩ :=
    updateLoop_rejects isValid input.TemplateConfig templateConfigFields
      input.TemplateConfig ⟨f, hmemf, gi, hgi, hbad⟩
  cases hq : fail 0 with
  | some e0 => simp [UpdateDashboardTemplate, hq, exec_some]
  | none =>
      refine ⟨?_, ?_, fun _ => ⟨e, f1, g1, hg1, hv1, ?_⟩⟩ <;>
        simp [UpdateDashboardTemplate, hq, exec_none, DB.run, hf, hloop]

/-- Witness of the amended claim C5: an item of width 0 in the "md" field, next to a valid
"sm" field. -/
theorem invalid_item_aborts_update_witness :
    (UpdateDashboardTemplate noFault positiveSize sampleDB sampleRow.ID
        sampleRow.UserIdentityID
        ⟨0, 0, false, ⟨"", ""⟩, ⟨some [sampleItem], some [⟨"bad", 0, 0, 0, 1⟩], none⟩⟩).db
      = sampleDB
    ∧ (UpdateDashboardTemplate noFault positiveSize sampleDB sampleRow.ID
        sampleRow.UserIdentityID
        ⟨0, 0, false, ⟨"", ""⟩, ⟨some [sampleItem], some [⟨"bad", 0, 0, 0, 1⟩], none⟩⟩).err
      = some (Error.other 400) :=
  ⟨(invalid_item_aborts_update noFault positiveSize sampleDB sampleRow
    ⟨0, 0, false, ⟨"", ""⟩, ⟨some [sampleItem], some [⟨"bad", 0, 0, 0, 1⟩], none⟩⟩
    GridSizes.md ⟨"bad", 0, 0, 0, 1⟩ sampleDB_wf (by decide) (by decide) (by decide)).1,
    by decide⟩

/-- Effect of a valid update on the store: when the lookup and the update
statement run and every item of the input is valid, every row but `t` is
untouched and the row `t` keeps its id, owner, default flag and template base,
while each config column receives the input column when that one is not nil
and keeps its stored value when it is nil. -/
theorem update_valid_rows (fail : Nat → Option Error) (isValid : Validator) (db : DB)
    (t input : DashboardTemplate)
    (hwf : db.WF) (ht : t ∈ db.rows) (hfind : fail 0 = none) (hwrite : fail 1 = none)
    (hvalid : ∀ f, ∀ gi ∈ input.TemplateConfig.items f, isValid gi f = none) :
    (UpdateDashboardTemplate fail isValid db t.ID t.UserIdentityID input).db.rows
      = db.rows.map (fun r =>
          if r.ID = t.ID then
            { r with TemplateConfig :=
                { Sm := if input.TemplateConfig.Sm = none then r.TemplateConfig.Sm
                        else input.TemplateConfig.Sm
                  Md := if input.TemplateConfig.Md = none then r.TemplateConfig.Md
                        else input.TemplateConfig.Md
                  Lg := if input.TemplateConfig.Lg = none then r.TemplateConfig.Lg
                        else input.TemplateConfig.Lg } }
          else r) := by
  have hf := find_by_id db t hwf ht
  have hloop := updateLoop_valid isValid input.TemplateConfig templateConfigFields
    (fun f _ => hvalid f)
  simp [UpdateDashboardTemplate, hfind, hwrite, exec_none, DB.run, hf, hloop, mergeNonZero,
    zeroDashboardTemplate]

/-- The stored row `t` after a valid update, as the update statement writes it. -/
theorem update_valid_stored (fail : Nat → Option Error) (isValid : Validator) (db : DB)
    (t input : DashboardTemplate)
    (hwf : db.WF) (ht : t ∈ db.rows) (hfind : fail 0 = none) (hwrite : fail 1 = none)
    (hvalid : ∀ f, ∀ gi ∈ input.TemplateConfig.items f, isValid gi f = none) :
    ∃ t1 ∈ (UpdateDashboardTemplate fail isValid db t.ID t.UserIdentityID input).db.rows,
      t1.ID = t.ID ∧ t1.UserIdentityID = t.UserIdentityID ∧ t1.Default = t.Default ∧
      t1.TemplateBase = t.TemplateBase ∧
      ∀ f : GridSizes,
        (input.TemplateConfig.Field f = none →
          t1.TemplateConfig.items f = t.TemplateConfig.items f) ∧
        (input.TemplateConfig.Field f ≠ none →
          t1.TemplateConfig.items f = input.TemplateConfig.items f) := by
  rw [update_valid_rows fail isValid db t input hwf ht hfind hwrite hvalid]
  refine ⟨_, List.mem_map_of_mem _ ht, ?_⟩
  simp only [if_true]
  refine ⟨trivial, trivial, trivial, trivial, ?_⟩
  intro f
  cases f <;> constructor <;> intro h <;>
    simp only [TemplateConfig.Field] at h <;>
    simp [TemplateConfig.items, TemplateConfig.Field, h]

/-- Claim C4, the code at the failing input.  The owner of `sampleRow`, whose
stored "sm" column holds one item, sends a config whose "sm" field is present
as the empty list: no item is decoded, yet the update statement writes the
field, and the stored items of "sm" change from one item to none. -/
theorem update_present_empty_field_overwrites :
    sampleRow.TemplateConfig.items GridSizes.sm = [sampleItem]
    ∧ (⟨some [], none, none⟩ : TemplateConfig).items GridSizes.sm = []
    ∧ (UpdateDashboardTemplate noFault acceptAll sampleDB sampleRow.ID sampleRow.UserIdentityID
        ⟨0, 0, false, ⟨"", ""⟩, ⟨some [], none, none⟩⟩).err = none
    ∧ (UpdateDashboardTemplate noFault acceptAll sampleDB sampleRow.ID sampleRow.UserIdentityID
        ⟨0, 0, false, ⟨"", ""⟩, ⟨some [], none, none⟩⟩).db.rows.map
          (fun r => r.TemplateConfig.items GridSizes.sm) = [[]] := by
  decide

/-! ## Fetching and seeding -/

theorem filter_group_absent (db : DB) (userId : Nat) (dashboard : String)
    (habsent : ∀ r ∈ db.rows, ¬ (r.UserIdentityID = userId ∧ r.TemplateBase.Name = dashboard)) :
    db.rows.filter (matchesUserName userId dashboard) = [] := by
  rw [List.filter_eq_nil_iff]
  intro r hr hm
  apply habsent r hr
  simpa [matchesUserName] using hm

/-- The seeding path of `GetDashboardTemplate` in full: for a non-empty type
with no stored row for `(userId, dashboard)` and an existence query that does
not fail, the call issues the query and one create statement and returns the
seed; the outcome of the create statement decides the error and the store. -/
theorem get_seeds (fail : Nat → Option Error) (reg : Registry) (db : DB)
    (userId : Nat) (dashboard : String)
    (hne : dashboard ≠ "")
    (habsent : ∀ r ∈ db.rows, ¬ (r.UserIdentityID = userId ∧ r.TemplateBase.Name = dashboard))
    (hquery : fail 0 = none) :
    (fail 1 = none →
        GetDashboardTemplate fail reg db userId dashboard
          = ⟨[{ seedTemplate reg userId dashboard with ID := db.nextID }], none,
              ⟨db.rows ++ [{ seedTemplate reg userId dashboard with ID := db.nextID }],
                db.nextID + 1⟩,
              [Stmt.FindWhereUserName userId dashboard,
                Stmt.Create (seedTemplate reg userId dashboard)]⟩)
    ∧ (∀ e, fail 1 = some e →
        GetDashboardTemplate fail reg db userId dashboard
          = ⟨[seedTemplate reg userId dashboard], some e, db,
              [Stmt.FindWhereUserName userId dashboard,
                Stmt.Create (seedTemplate reg userId dashboard)]⟩) := by
  have hf := filter_group_absent db userId dashboard habsent
  constructor
  · intro hc
    simp [GetDashboardTemplate, GetUserDashboardTemplate, hne, hquery, hc, exec_none, DB.run, hf,
      seedTemplate]
  · intro e hc
    simp [GetDashboardTemplate, GetUserDashboardTemplate, hne, hquery, hc, exec_none, exec_some,
      DB.run, hf, seedTemplate, Stmt.dest0]

/-- Claim C3, as stated, fails when the create statement fails.  User 7 has no
"landingPage" row in the empty store and the existence query returns no
error, but the create statement fails: the call still returns a one-element
sequence, with the error, and no row has been created. -/
theorem seed_returned_but_not_created :
    "landingPage" ≠ ""
    ∧ (∀ r ∈ emptyDB.rows, ¬ (r.UserIdentityID = 7 ∧ r.TemplateBase.Name = "landingPage"))
    ∧ failAt 1 (Error.other 500) 0 = none
    ∧ (GetDashboardTemplate (failAt 1 (Error.other 500)) sampleRegistry emptyDB 7
        "landingPage").value.length = 1
    ∧ (GetDashboardTemplate (failAt 1 (Error.other 500)) sampleRegistry emptyDB 7
        "landingPage").err = some (Error.other 500)
    ∧ (GetDashboardTemplate (failAt 1 (Error.other 500)) sampleRegistry emptyDB 7
        "landingPage").db.rows = [] := by
  decide

/-- Claim C3, amended.  For a non-empty type with no stored row for
`(userId, dashboard)` and an existence query that returns no error,
`GetDashboardTemplate` returns a sequence of exactly one template with
owner `userId`, `default = true`, type name `dashboard`, and the display name
and template config of the registry entry `util.BaseTemplates[dashboard]`.
When the create statement returns no error the call returns a nil error and
exactly that row, with the id the store assigned, is added to the store; when
the create statement fails with `e` the call returns `e` with the sequence
and the store is unchanged. -/
theorem seed_when_absent (fail : Nat → Option Error) (reg : Registry) (db : DB)
    (userId : Nat) (dashboard : String)
    (hne : dashboard ≠ "")
    (habsent : ∀ r ∈ db.rows, ¬ (r.UserIdentityID = userId ∧ r.TemplateBase.Name = dashboard))
    (hquery : fail 0 = none) :
    ∃ row : DashboardTemplate,
      (GetDashboardTemplate fail reg db userId dashboard).value = [row]
      ∧ row.UserIdentityID = userId ∧ row.Default = true
      ∧ row.TemplateBase.Name = dashboard
      ∧ row.TemplateBase.DisplayName = (reg.lookup dashboard).DisplayName
      ∧ row.TemplateConfig = (reg.lookup dashboard).TemplateConfig
      ∧ (fail 1 = none →
          (GetDashboardTemplate fail reg db userId dashboard).err = none
          ∧ row.ID = db.nextID
          ∧ (GetDashboardTemplate fail reg db userId dashboard).db.rows = db.rows ++ [row])
      ∧ (∀ e, fail 1 = some e →
          (GetDashboardTemplate fail reg db userId dashboard).err = some e
          ∧ (GetDashboardTemplate fail reg db userId dashboard).db = db) := by
  have hs := get_seeds fail reg db userId dashboard hne habsent hquery
  cases hc : fail 1 with
  | none =>
      refine ⟨{ seedTemplate reg userId dashboard with ID := db.nextID }, ?_⟩
      rw [hs.1 hc]
      simp [seedTemplate]
  | some e =>
      refine ⟨seedTemplate reg userId dashboard, ?_⟩
      rw [hs.2 e hc]
      simp [seedTemplate]

/-- Witness of the amended claim C3: user 7 asks for "landingPage" on the
empty store. -/
theorem seed_when_absent_witness :
    ∃ row : DashboardTemplate,
      (GetDashboardTemplate noFault sampleRegistry emptyDB 7 "landingPage").value = [row]
      ∧ row.UserIdentityID = 7 ∧ row.Default = true
      ∧ row.TemplateBase.Name = "landingPage" :=
  have h := seed_when_absent noFault sampleRegistry emptyDB 7 "landingPage"
    (by decide) (by decide) rfl
  h.elim fun row hrow => ⟨row, hrow.1, hrow.2.1, hrow.2.2.1, hrow.2.2.2.1⟩

/-- Claim C10, as stated, fails when the create statement fails.  The type
"unknown" is not a key of the registry, user 7 has no row of that type and
the existence query returns no error, but the create statement fails: one
template is returned and none is created. -/
theorem unknown_type_returned_but_not_created :
    "unknown" ≠ ""
    ∧ sampleRegistry "unknown" = none
    ∧ (∀ r ∈ sampleDB.rows, ¬ (r.UserIdentityID = 7 ∧ r.TemplateBase.Name = "unknown"))
    ∧ failAt 1 (Error.other 503) 0 = none
    ∧ (GetUserDashboardTemplate (failAt 1 (Error.other 503)) sampleRegistry sampleDB 7
        "unknown").value.length = 1
    ∧ (GetUserDashboardTemplate (failAt 1 (Error.other 503)) sampleRegistry sampleDB 7
        "unknown").db = sampleDB := by
  decide

/-- Claim C10, amended.  `GetUserDashboardTemplate` performs no validity check
on the template type: for a non-empty type that is not a key of the registry,
with no stored row for `(userId, dashboard)` and an existence query that
returns no error, the call returns one template with owner `userId`,
`default = true`, type name `dashboard`, an empty display name and the
zero-value template config, and the only error it can return is that of the
create statement; when the create statement returns no error that template is
created in the store. -/
theorem unknown_type_is_seeded (fail : Nat → Option Error) (reg : Registry) (db : DB)
    (userId : Nat) (dashboard : String)
    (hne : dashboard ≠ "")
    (hkey : reg dashboard = none)
    (habsent : ∀ r ∈ db.rows, ¬ (r.UserIdentityID = userId ∧ r.TemplateBase.Name = dashboard))
    (hquery : fail 0 = none) :
    ∃ row : DashboardTemplate,
      (GetUserDashboardTemplate fail reg db userId dashboard).value = [row]
      ∧ row.UserIdentityID = userId ∧ row.Default = true
      ∧ row.TemplateBase = ⟨dashboard, ""⟩
      ∧ row.TemplateConfig = zeroTemplateConfig
      ∧ (GetUserDashboardTemplate fail reg db userId dashboard).err = fail 1
      ∧ (fail 1 = none →
          (GetUserDashboardTemplate fail reg db userId dashboard).db.rows
            = db.rows ++ [row]) := by
  have hs := get_seeds fail reg db userId dashboard hne habsent hquery
  simp only [GetDashboardTemplate, hne, if_false] at hs
  have hl : reg.lookup dashboard = zeroBaseDashboardTemplate := by
    simp [Registry.lookup, hkey]
  cases hc : fail 1 with
  | none =>
      refine ⟨{ seedTemplate reg userId dashboard with ID := db.nextID }, ?_⟩
      rw [hs.1 hc]
      simp [seedTemplate, hl, zeroBaseDashboardTemplate]
  | some e =>
      refine ⟨seedTemplate reg userId dashboard, ?_⟩
      rw [hs.2 e hc]
      simp [seedTemplate, hl, zeroBaseDashboardTemplate]

/-- The registry lookup of the service, unlike the seeding path, checks the
type first: a type the validity check rejects yields that error and the zero
value. -/
theorem base_lookup_checks_type (typeIsValid : TypeValidator) (reg : Registry)
    (dashboard : String) (err : Error) (h : typeIsValid dashboard = some err) :
    GetDashboardTemplateBase typeIsValid reg dashboard
      = (zeroBaseDashboardTemplate, some err) := by
  simp [GetDashboardTemplateBase, h]

/-- Witness of the amended claim C10: user 7 asks for the unregistered type
"unknown". -/
theorem unknown_type_is_seeded_witness :
    ∃ row : DashboardTemplate,
      (GetUserDashboardTemplate noFault sampleRegistry sampleDB 7 "unknown").value = [row]
      ∧ row.UserIdentityID = 7 ∧ row.Default = true
      ∧ row.TemplateBase = ⟨"unknown", ""⟩
      ∧ row.TemplateConfig = zeroTemplateConfig :=
  have h := unknown_type_is_seeded noFault sampleRegistry sampleDB 7 "unknown"
    (by decide) (by decide) (by decide) rfl
  h.elim fun row hrow => ⟨row, hrow.1, hrow.2.1, hrow.2.2.1, hrow.2.2.2.1, hrow.2.2.2.2.1⟩

/-- Claim C9, as stated, fails when the second existence query fails.  User 7
has no "landingPage" row in the empty store; the first call returns a nil
error and one template; on the store it left, the second call meets a failing
existence query and returns that error with an empty sequence instead of the
row of the first call. -/
theorem second_call_query_failure :
    (GetDashboardTemplate noFault sampleRegistry emptyDB 7 "landingPage").err = none
    ∧ (GetDashboardTemplate noFault sampleRegistry emptyDB 7 "landingPage").value.length = 1
    ∧ (GetDashboardTemplate (failAt 0 (Error.other 500)) sampleRegistry
        (GetDashboardTemplate noFault sampleRegistry emptyDB 7 "landingPage").db 7
        "landingPage").value = []
    ∧ (GetDashboardTemplate (failAt 0 (Error.other 500)) sampleRegistry
        (GetDashboardTemplate noFault sampleRegistry emptyDB 7 "landingPage").db 7
        "landingPage").err = some (Error.other 500) := by
  decide

/-- Claim C9, amended.  Seeding is idempotent: for a non-empty type with no
stored row for `(userId, dashboard)`, if `GetDashboardTemplate` returns a nil
error and is called again with the same arguments on the store it left, then
the first call returned a one-element sequence, the second call issues its
existence query only and leaves the store as the first call left it (no
second row is created) whether or not that query fails, and when the second
existence query returns no error the second call returns a nil error and the
same one-element sequence (same id, same contents) as the first call. -/
theorem seeding_idempotent (fail1 fail2 : Nat → Option Error) (reg : Registry) (db : DB)
    (userId : Nat) (dashboard : String)
    (hne : dashboard ≠ "")
    (habsent : ∀ r ∈ db.rows, ¬ (r.UserIdentityID = userId ∧ r.TemplateBase.Name = dashboard))
    (hfirst : (GetDashboardTemplate fail1 reg db userId dashboard).err = none) :
    (GetDashboardTemplate fail1 reg db userId dashboard).value.length = 1
    ∧ (GetDashboardTemplate fail2 reg
        (GetDashboardTemplate fail1 reg db userId dashboard).db userId dashboard).db
      = (GetDashboardTemplate fail1 reg db userId dashboard).db
    ∧ (GetDashboardTemplate fail2 reg
        (GetDashboardTemplate fail1 reg db userId dashboard).db userId dashboard).log
      = [Stmt.FindWhereUserName userId dashboard]
    ∧ (fail2 0 = none →
        (GetDashboardTemplate fail2 reg
            (GetDashboardTemplate fail1 reg db userId dashboard).db userId dashboard).value
          = (GetDashboardTemplate fail1 reg db userId dashboard).value
        ∧ (GetDashboardTemplate fail2 reg
            (GetDashboardTemplate fail1 reg db userId dashboard).db userId dashboard).err
          = none) := by
  have hf := filter_group_absent db userId dashboard habsent
  cases hq : fail1 0 with
  | some e =>
      simp [GetDashboardTemplate, GetUserDashboardTemplate, hne, hq, exec_some] at hfirst
  | none =>
      have hs := get_seeds fail1 reg db userId dashboard hne habsent hq
      cases hc : fail1 1 with
      | some e =>
          rw [(hs.2 e hc)] at hfirst
          simp at hfirst
      | none =>
          rw [hs.1 hc]
          cases hq2 : fail2 0 with
          | some e2 =>
              simp [GetDashboardTemplate, GetUserDashboardTemplate, hne, hq2, exec_some]
          | none =>
              simp [GetDashboardTemplate, GetUserDashboardTemplate, hne, hq2, exec_none, DB.run,
                hf, List.filter_append, matchesUserName, seedTemplate]

/-- Witness of the amended claim C9: user 7 asks twice for "landingPage", starting from
the empty store. -/
theorem seeding_idempotent_witness :
    (GetDashboardTemplate noFault sampleRegistry
        (GetDashboardTemplate noFault sampleRegistry emptyDB 7 "landingPage").db 7
        "landingPage").value
      = (GetDashboardTemplate noFault sampleRegistry emptyDB 7 "landingPage").value :=
  ((seeding_idempotent noFault noFault sampleRegistry emptyDB 7 "landingPage"
    (by decide) (by decide) (by decide)).2.2.2 rfl).1

/-! ## Copying -/

/-- A lookup by id either finds nothing or yields a stored row with that id. -/
theorem lookup_cases (db : DB) (id : Nat) :
    db.rows.filter (fun r => decide (r.ID = id)) = []
    ∨ ∃ src tl, db.rows.filter (fun r => decide (r.ID = id)) = src :: tl
        ∧ src ∈ db.rows ∧ src.ID = id := by
  cases h : db.rows.filter (fun r => decide (r.ID = id)) with
  | nil => exact Or.inl rfl
  | cons src tl =>
      have hm : src ∈ db.rows.filter (fun r => decide (r.ID = id)) := by
        rw [h]
        exact List.mem_cons_self _ _
      rw [List.mem_filter] at hm
      exact Or.inr ⟨src, tl, rfl, hm.1, of_decide_eq_true hm.2⟩

/-- Claim C7.  A `CopyDashboardTemplate` call that returns a nil error adds
exactly one row to the store: the returned row, whose id differs from every
id stored before, whose owner is `accountId`, whose default flag is false and
whose template base (type name, display name) and template config are those
of the stored row with the given id, whoever owns it; all rows stored before
are unchanged.  When no stored row has the given id the call returns
`gorm.ErrRecordNotFound` and the store is unchanged. -/
theorem copy_adds_one_row (fail : Nat → Option Error) (db : DB)
    (accountId dashboardTemplateId : Nat) (hwf : db.WF) :
    ((CopyDashboardTemplate fail db accountId dashboardTemplateId).err = none →
      ∃ src ∈ db.rows, src.ID = dashboardTemplateId
        ∧ (CopyDashboardTemplate fail db accountId dashboardTemplateId).db.rows
            = db.rows ++ [(CopyDashboardTemplate fail db accountId dashboardTemplateId).value]
        ∧ (∀ r ∈ db.rows,
            r.ID ≠ (CopyDashboardTemplate fail db accountId dashboardTemplateId).value.ID)
        ∧ (CopyDashboardTemplate fail db accountId dashboardTemplateId).value.UserIdentityID
            = accountId
        ∧ (CopyDashboardTemplate fail db accountId dashboardTemplateId).value.Default = false
        ∧ (CopyDashboardTemplate fail db accountId dashboardTemplateId).value.TemplateBase
            = src.TemplateBase
        ∧ (CopyDashboardTemplate fail db accountId dashboardTemplateId).value.TemplateConfig
            = src.TemplateConfig)
    ∧ ((∀ r ∈ db.rows, r.ID ≠ dashboardTemplateId) →
        (CopyDashboardTemplate fail db accountId dashboardTemplateId).err
            = some Error.ErrRecordNotFound
        ∧ (CopyDashboardTemplate fail db accountId dashboardTemplateId).db = db) := by
  constructor
  · intro hok
    cases hq : fail 0 with
    | some e => simp [CopyDashboardTemplate, hq, exec_some] at hok
    | none =>
        rcases lookup_cases db dashboardTemplateId with h0 | ⟨src, tl, hsrc, hmem, hid⟩
        · simp [CopyDashboardTemplate, hq, exec_none, DB.run, h0] at hok
        · cases hc : fail 1 with
          | some e =>
              simp [CopyDashboardTemplate, hq, hc, exec_none, exec_some, DB.run, hsrc] at hok
          | none =>
              refine ⟨src, hmem, hid, ?_⟩
              simp only [CopyDashboardTemplate, hq, hc, exec_none, DB.run, hsrc]
              simp only [List.length_cons, Nat.succ_ne_zero, ne_eq, not_true_eq_false, or_self,
                if_false, List.headD_cons, zeroDashboardTemplate]
              refine ⟨trivial, ?_, trivial, trivial, trivial, trivial⟩
              intro r hr
              exact Nat.ne_of_lt (hwf.2.2 r hr).2
  · intro habsent
    have h0 := find_by_id_absent db dashboardTemplateId habsent
    cases hq : fail 0 with
    | some e => simp [CopyDashboardTemplate, hq, exec_some]
    | none => simp [CopyDashboardTemplate, hq, exec_none, DB.run, h0]

/-- Witness of claim C7: user 8 copies row 1 of user 7. -/
theorem copy_adds_one_row_witness :
    (CopyDashboardTemplate noFault sampleDB 8 1).err = none
    ∧ ∃ src ∈ sampleDB.rows, src.ID = 1
      ∧ (CopyDashboardTemplate noFault sampleDB 8 1).db.rows
          = sampleDB.rows ++ [(CopyDashboardTemplate noFault sampleDB 8 1).value] :=
  ⟨by decide,
    ((copy_adds_one_row noFault sampleDB 8 1 sampleDB_wf).1 (by decide)).elim
      fun src h => ⟨src, h.1, h.2.1, h.2.2.1⟩⟩

/-! ## Switching the default -/

/-- Two stored rows with the same id are the same row. -/
theorem eq_of_id_eq (db : DB) (hwf : db.WF) {r t : DashboardTemplate}
    (hr : r ∈ db.rows) (ht : t ∈ db.rows) (h : r.ID = t.ID) : r = t := by
  have hf := find_by_id db t hwf ht
  have hm : r ∈ db.rows.filter (fun r => decide (r.ID = t.ID)) :=
    List.mem_filter.mpr ⟨hr, decide_eq_true h⟩
  rw [hf] at hm
  simpa using hm

/-- What the store looks like after `ChangeDefaultTemplate`: unchanged (the
lookup failed, found nothing, found a row of another owner, or the bulk
statement failed), or with the target group cleared (the last statement
failed), or with the flag switched to the target (the call returned nil). -/
theorem change_default_db (fail : Nat → Option Error) (db : DB) (accountId dashboardId : Nat)
    (hwf : db.WF) :
    ((ChangeDefaultTemplate fail db accountId dashboardId).err ≠ none
      ∧ (ChangeDefaultTemplate fail db accountId dashboardId).db = db)
    ∨ ∃ t ∈ db.rows, t.ID = dashboardId ∧ t.UserIdentityID = accountId ∧
        (((ChangeDefaultTemplate fail db accountId dashboardId).err ≠ none
            ∧ (ChangeDefaultTemplate fail db accountId dashboardId).db
              = ⟨db.rows.map (clearedRow accountId t.TemplateBase.Name), db.nextID⟩)
          ∨ ((ChangeDefaultTemplate fail db accountId dashboardId).err = none
            ∧ (ChangeDefaultTemplate fail db accountId dashboardId).db
              = ⟨db.rows.map (switchedRow accountId t.TemplateBase.Name dashboardId),
                  db.nextID⟩)) := by
  cases hq : fail 0 with
  | some e =>
      left
      simp [ChangeDefaultTemplate, hq, exec_some]
  | none =>
      rcases lookup_cases db dashboardId with h0 | ⟨t, tl, hsrc, hmem, hid⟩
      · left
        simp [ChangeDefaultTemplate, hq, exec_none, DB.run, h0]
      · have hf := find_by_id db t hwf hmem
        subst hid
        by_cases hown : t.UserIdentityID = accountId
        · subst hown
          cases hb : fail 1 with
          | some e =>
              left
              simp [ChangeDefaultTemplate, hq, hb, exec_none, exec_some, DB.run, hf]
          | none =>
              right
              refine ⟨t, hmem, rfl, rfl, ?_⟩
              have hclear : ∀ r : DashboardTemplate,
                  (if matchesUserName t.UserIdentityID t.TemplateBase.Name r = true
                    then { r with Default := false } else r)
                  = clearedRow t.UserIdentityID t.TemplateBase.Name r := fun r => rfl
              cases hs : fail 2 with
              | some e =>
                  left
                  simp [ChangeDefaultTemplate, hq, hb, hs, exec_none, exec_some, DB.run, hf,
                    hclear]
              | none =>
                  right
                  simp [ChangeDefaultTemplate, hq, hb, hs, exec_none, DB.run, hf, hclear]
                  intro r hr
                  have hcid : (clearedRow t.UserIdentityID t.TemplateBase.Name r).ID = r.ID := by
                    unfold clearedRow
                    split <;> rfl
                  rw [hcid]
                  by_cases hrid : r.ID = t.ID
                  · have hrt : r = t := eq_of_id_eq db hwf hr hmem hrid
                    subst hrt
                    simp [switchedRow, clearedRow, matchesUserName, mergeNonZero,
                      zeroDashboardTemplate, zeroTemplateConfig]
                  · by_cases hm : matchesUserName t.UserIdentityID t.TemplateBase.Name r = true
                    · simp [switchedRow, clearedRow, hm, hrid]
                    · simp [switchedRow, clearedRow, hm, hrid]
        · left
          simp [ChangeDefaultTemplate, hq, exec_none, DB.run, hf, hown]

theorem switchedRow_ID (accountId : Nat) (name : String) (id : Nat) (r : DashboardTemplate) :
    (switchedRow accountId name id r).ID = r.ID := by
  unfold switchedRow
  split <;> rfl

theorem switchedRow_matches (accountId : Nat) (name : String) (id : Nat) (u : Nat) (n : String)
    (r : DashboardTemplate) :
    matchesUserName u n (switchedRow accountId name id r) = matchesUserName u n r := by
  unfold switchedRow
  split <;> rfl

theorem clearedRow_matches (accountId : Nat) (name : String) (u : Nat) (n : String)
    (r : DashboardTemplate) :
    matchesUserName u n (clearedRow accountId name r) = matchesUserName u n r := by
  unfold clearedRow
  split <;> rfl

/-- Claim C2.  When `ChangeDefaultTemplate accountId dashboardId` returns a nil
error, the store holds a target row with id `dashboardId` owned by
`accountId`, and in the resulting store the rows of the group
(`accountId`, type name of the target) that have `default = true` are exactly
one row, the one with id `dashboardId`; the table holds the same ids as
before, and the rows of other users or other types are unchanged. -/
theorem change_default_single (fail : Nat → Option Error) (db : DB)
    (accountId dashboardId : Nat) (hwf : db.WF)
    (hok : (ChangeDefaultTemplate fail db accountId dashboardId).err = none) :
    ∃ t ∈ db.rows, t.ID = dashboardId ∧ t.UserIdentityID = accountId
      ∧ ((ChangeDefaultTemplate fail db accountId dashboardId).db.defaults accountId
            t.TemplateBase.Name).map (fun r => r.ID) = [dashboardId]
      ∧ (ChangeDefaultTemplate fail db accountId dashboardId).db.rows.map (fun r => r.ID)
          = db.rows.map (fun r => r.ID)
      ∧ (ChangeDefaultTemplate fail db accountId dashboardId).db.rows.filter
            (fun r => !matchesUserName accountId t.TemplateBase.Name r)
          = db.rows.filter (fun r => !matchesUserName accountId t.TemplateBase.Name r) := by
  rcases change_default_db fail db accountId dashboardId hwf with
    ⟨hne, _⟩ | ⟨t, hmem, hid, hown, ⟨hne, _⟩ | ⟨_, hdb⟩⟩
  · exact absurd hok hne
  · exact absurd hok hne
  · refine ⟨t, hmem, hid, hown, ?_, ?_, ?_⟩
    · rw [hdb]
      simp only [DB.defaults, List.filter_map]
      have hcongr : db.rows.filter
            ((fun r => matchesUserName accountId t.TemplateBase.Name r && r.Default)
              ∘ switchedRow accountId t.TemplateBase.Name dashboardId)
          = db.rows.filter (fun r => decide (r.ID = t.ID)) := by
        apply List.filter_congr
        intro r hr
        simp only [Function.comp, switchedRow_matches]
        by_cases hm : matchesUserName accountId t.TemplateBase.Name r = true
        · simp [switchedRow, hm, hid]
        · have hrid : r.ID ≠ t.ID := by
            intro h
            have hrt : r = t := eq_of_id_eq db hwf hr hmem h
            apply hm
            rw [hrt]
            simp [matchesUserName, hown]
          simp [hm, hrid]
      rw [hcongr, find_by_id db t hwf hmem]
      simp [switchedRow_ID, hid]
    · rw [hdb]
      simp [List.map_map, Function.comp, switchedRow_ID]
    · rw [hdb]
      simp only [List.filter_map]
      have hcongr : db.rows.filter
            ((fun r => !matchesUserName accountId t.TemplateBase.Name r)
              ∘ switchedRow accountId t.TemplateBase.Name dashboardId)
          = db.rows.filter (fun r => !matchesUserName accountId t.TemplateBase.Name r) := by
        apply List.filter_congr
        intro r _
        simp only [Function.comp, switchedRow_matches]
      rw [hcongr]
      conv_rhs => rw [← List.map_id (db.rows.filter
        (fun r => !matchesUserName accountId t.TemplateBase.Name r))]
      apply List.map_congr_left
      intro r hr
      have hm := (List.mem_filter.mp hr).2
      simp only [Bool.not_eq_true', id] at hm ⊢
      simp [switchedRow, hm]

/-- Witness of claim C2: user 7 moves the default from row 1 to row 2. -/
theorem change_default_single_witness :
    (ChangeDefaultTemplate noFault sampleDB2 7 2).err = none
    ∧ ∃ t ∈ sampleDB2.rows, t.ID = 2 ∧ t.UserIdentityID = 7
      ∧ ((ChangeDefaultTemplate noFault sampleDB2 7 2).db.defaults 7
            t.TemplateBase.Name).map (fun r => r.ID) = [2] :=
  ⟨by decide,
    (change_default_single noFault sampleDB2 7 2 sampleDB2_wf (by decide)).elim
      fun t h => ⟨t, h.1, h.2.1, h.2.2.1, h.2.2.2.1⟩⟩

/-! ## The single-default invariant -/

theorem defaults_length (db : DB) (u : Nat) (n : String) :
    (db.defaults u n).length
      = db.rows.countP (fun r => matchesUserName u n r && r.Default) := by
  simp [DB.defaults, List.countP_eq_length_filter]

/-- A row-wise rewrite that keeps owner and type name and sets no flag keeps
the invariant. -/
theorem singleDefault_map (rows : List DashboardTemplate) (n m : Nat)
    (g : DashboardTemplate → DashboardTemplate)
    (hg : ∀ r, (g r).UserIdentityID = r.UserIdentityID
      ∧ (g r).TemplateBase.Name = r.TemplateBase.Name
      ∧ ((g r).Default = true → r.Default = true))
    (hinv : DB.SingleDefault ⟨rows, n⟩) : DB.SingleDefault ⟨rows.map g, m⟩ := by
  intro u nm
  have h := hinv u nm
  rw [defaults_length] at h ⊢
  simp only [List.countP_map]
  refine le_trans (List.countP_mono_left ?_) h
  intro r _ hr
  obtain ⟨h1, h2, h3⟩ := hg r
  simp only [Function.comp, matchesUserName, h1, h2, Bool.and_eq_true, decide_eq_true_eq] at hr ⊢
  exact ⟨hr.1, h3 hr.2⟩

/-- Removing rows keeps the invariant. -/
theorem singleDefault_filter (rows : List DashboardTemplate) (n m : Nat)
    (q : DashboardTemplate → Bool)
    (hinv : DB.SingleDefault ⟨rows, n⟩) : DB.SingleDefault ⟨rows.filter q, m⟩ := by
  intro u nm
  have h := hinv u nm
  simp only [DB.defaults] at h ⊢
  exact le_trans ((List.filter_sublist rows).filter _).length_le h

/-- Adding a row whose flag is not set keeps the invariant. -/
theorem singleDefault_append_plain (rows : List DashboardTemplate) (n m : Nat)
    (new : DashboardTemplate) (hflag : new.Default = false)
    (hinv : DB.SingleDefault ⟨rows, n⟩) : DB.SingleDefault ⟨rows ++ [new], m⟩ := by
  intro u nm
  have h := hinv u nm
  simp only [DB.defaults, List.filter_append] at h ⊢
  simpa [List.filter_cons, hflag] using h

/-- Adding a default row to a group that has no row keeps the invariant. -/
theorem singleDefault_append_seed (rows : List DashboardTemplate) (n m : Nat)
    (new : DashboardTemplate)
    (hgroup : rows.filter (matchesUserName new.UserIdentityID new.TemplateBase.Name) = [])
    (hinv : DB.SingleDefault ⟨rows, n⟩) : DB.SingleDefault ⟨rows ++ [new], m⟩ := by
  intro u nm
  have h := hinv u nm
  simp only [DB.defaults, List.filter_append, List.length_append] at h ⊢
  by_cases hm : matchesUserName u nm new = true
  · have hu : new.UserIdentityID = u ∧ new.TemplateBase.Name = nm := by
      simpa [matchesUserName] using hm
    have hempty : rows.filter (fun r => matchesUserName u nm r && r.Default) = [] := by
      rw [List.filter_eq_nil_iff]
      intro r hr hp
      rw [List.filter_eq_nil_iff] at hgroup
      apply hgroup r hr
      rw [hu.1, hu.2]
      simp only [Bool.and_eq_true] at hp
      exact hp.1
    rw [hempty]
    simp only [List.length_nil, zero_add]
    exact (List.filter_sublist [new]).length_le
  · have hout : [new].filter (fun r => matchesUserName u nm r && r.Default) = [] := by
      simp [List.filter_cons, hm]
    rw [hout]
    simpa using h

/-- Switching the default to a stored row of the group keeps the invariant. -/
theorem singleDefault_switched (db : DB) (hwf : db.WF) (t : DashboardTemplate)
    (ht : t ∈ db.rows) (m : Nat) (hinv : db.SingleDefault) :
    DB.SingleDefault
      ⟨db.rows.map (switchedRow t.UserIdentityID t.TemplateBase.Name t.ID), m⟩ := by
  intro u nm
  rw [defaults_length]
  simp only [List.countP_map]
  by_cases hg : u = t.UserIdentityID ∧ nm = t.TemplateBase.Name
  · obtain ⟨hu, hn⟩ := hg
    subst hu
    subst hn
    have hone : db.rows.countP (fun r => decide (r.ID = t.ID)) = 1 := by
      rw [List.countP_eq_length_filter, find_by_id db t hwf ht]
      rfl
    rw [← hone]
    apply List.countP_mono_left
    intro r _ hr
    simp only [Function.comp, switchedRow_matches, Bool.and_eq_true] at hr
    have hd := hr.2
    simp only [switchedRow, hr.1, if_true] at hd
    exact hd
  · have h := hinv u nm
    rw [defaults_length] at h
    refine le_trans (List.countP_mono_left ?_) h
    intro r _ hr
    simp only [Function.comp, switchedRow_matches, Bool.and_eq_true] at hr ⊢
    refine ⟨hr.1, ?_⟩
    have hnot : matchesUserName t.UserIdentityID t.TemplateBase.Name r = false := by
      have h1 : r.UserIdentityID = u ∧ r.TemplateBase.Name = nm := by
        simpa [matchesUserName] using hr.1
      cases hmm : matchesUserName t.UserIdentityID t.TemplateBase.Name r with
      | false => rfl
      | true =>
          have h2 : r.UserIdentityID = t.UserIdentityID
              ∧ r.TemplateBase.Name = t.TemplateBase.Name := by
            simpa [matchesUserName] using hmm
          exact absurd ⟨h1.1 ▸ h2.1, h1.2 ▸ h2.2⟩ hg
    have hd := hr.2
    simp only [switchedRow, hnot] at hd
    exact hd

/-- The store after `GetDashboardTemplate`: unchanged, or extended by the
seed when the group has no row. -/
theorem get_db (fail : Nat → Option Error) (reg : Registry) (db : DB)
    (userId : Nat) (dashboard : String) :
    (GetDashboardTemplate fail reg db userId dashboard).db = db
    ∨ (db.rows.filter (matchesUserName userId dashboard) = []
      ∧ (GetDashboardTemplate fail reg db userId dashboard).db
        = ⟨db.rows ++ [{ seedTemplate reg userId dashboard with ID := db.nextID }],
            db.nextID + 1⟩) := by
  by_cases hne : dashboard = ""
  · left
    cases hq : fail 0 <;>
      simp [GetDashboardTemplate, GetAllUserDashboardTemplates, hne, hq, exec_none, exec_some,
        DB.run]
  · cases hq : fail 0 with
    | some e =>
        left
        simp [GetDashboardTemplate, GetUserDashboardTemplate, hne, hq, exec_some]
    | none =>
        cases hrs : db.rows.filter (matchesUserName userId dashboard) with
        | nil =>
            cases hc : fail 1 with
            | some e =>
                left
                simp [GetDashboardTemplate, GetUserDashboardTemplate, hne, hq, hc, exec_none,
                  exec_some, DB.run, hrs]
            | none =>
                right
                simp [GetDashboardTemplate, GetUserDashboardTemplate, hne, hq, hc, exec_none,
                  DB.run, hrs, seedTemplate]
        | cons a tl =>
            left
            simp [GetDashboardTemplate, GetUserDashboardTemplate, hne, hq, exec_none, DB.run,
              hrs]

/-- The store after `UpdateDashboardTemplate`: unchanged, or with some config
written by the update statement to the rows with the given id. -/
theorem update_db (fail : Nat → Option Error) (isValid : Validator) (db : DB)
    (templateId userId : Nat) (input : DashboardTemplate) :
    (UpdateDashboardTemplate fail isValid db templateId userId input).db = db
    ∨ ∃ tc : TemplateConfig,
        (UpdateDashboardTemplate fail isValid db templateId userId input).db
          = ⟨db.rows.map (fun r =>
              if decide (r.ID = templateId) then
                mergeNonZero r { zeroDashboardTemplate with TemplateConfig := tc }
              else r), db.nextID⟩ := by
  cases hq : fail 0 with
  | some e =>
      left
      simp [UpdateDashboardTemplate, hq, exec_some]
  | none =>
      rcases lookup_cases db templateId with h0 | ⟨t, tl, hsrc, _, hid⟩
      · left
        simp [UpdateDashboardTemplate, hq, exec_none, DB.run, h0]
      · by_cases hown : t.UserIdentityID = userId
        · cases hloop : updateLoop isValid input.TemplateConfig templateConfigFields
              input.TemplateConfig with
          | error e =>
              left
              simp [UpdateDashboardTemplate, hq, exec_none, DB.run, hsrc, hown, hloop]
          | ok tc =>
              cases hw : fail 1 with
              | some e =>
                  left
                  simp [UpdateDashboardTemplate, hq, hw, exec_none, exec_some, DB.run, hsrc,
                    hown, hloop]
              | none =>
                  right
                  refine ⟨tc, ?_⟩
                  simp [UpdateDashboardTemplate, hq, hw, exec_none, DB.run, hsrc, hown, hloop,
                    hid]
        · left
          simp [UpdateDashboardTemplate, hq, exec_none, DB.run, hsrc, hown]

/-- The store after `CopyDashboardTemplate`: unchanged, or extended by a row
whose flag is not set and whose id is the next id. -/
theorem copy_db (fail : Nat → Option Error) (db : DB) (accountId dashboardTemplateId : Nat) :
    (CopyDashboardTemplate fail db accountId dashboardTemplateId).db = db
    ∨ ∃ new : DashboardTemplate, new.Default = false ∧ new.ID = db.nextID
        ∧ (CopyDashboardTemplate fail db accountId dashboardTemplateId).db
          = ⟨db.rows ++ [new], db.nextID + 1⟩ := by
  cases hq : fail 0 with
  | some e =>
      left
      simp [CopyDashboardTemplate, hq, exec_some]
  | none =>
      rcases lookup_cases db dashboardTemplateId with h0 | ⟨t, tl, hsrc, _, _⟩
      · left
        simp [CopyDashboardTemplate, hq, exec_none, DB.run, h0]
      · cases hc : fail 1 with
        | some e =>
            left
            simp [CopyDashboardTemplate, hq, hc, exec_none, exec_some, DB.run, hsrc]
        | none =>
            right
            refine ⟨⟨db.nextID, accountId, false, t.TemplateBase, t.TemplateConfig⟩, rfl, rfl, ?_⟩
            simp [CopyDashboardTemplate, hq, hc, exec_none, DB.run, hsrc, zeroDashboardTemplate]

/-- The store after `DeleteTemplate`: unchanged, or without the rows of the
given id. -/
theorem delete_db (fail : Nat → Option Error) (db : DB) (accountId dashboardTemplateId : Nat) :
    (DeleteTemplate fail db accountId dashboardTemplateId).db = db
    ∨ (DeleteTemplate fail db accountId dashboardTemplateId).db
        = ⟨db.rows.filter (fun r => !decide (r.ID = dashboardTemplateId)), db.nextID⟩ := by
  cases hq : fail 0 with
  | some e =>
      left
      simp [DeleteTemplate, hq, exec_some]
  | none =>
      rcases lookup_cases db dashboardTemplateId with h0 | ⟨t, tl, hsrc, _, hid⟩
      · left
        simp [DeleteTemplate, hq, exec_none, DB.run, h0]
      · by_cases hown : t.UserIdentityID = accountId
        · cases hc : fail 1 with
          | some e =>
              left
              simp [DeleteTemplate, hq, hc, exec_none, exec_some, DB.run, hsrc, hown]
          | none =>
              right
              simp [DeleteTemplate, hq, hc, exec_none, DB.run, hsrc, hown, hid]
        · left
          simp [DeleteTemplate, hq, exec_none, DB.run, hsrc, hown]

/-- Claim C1.  Over the sequential store with atomic statements: if every
(user id, template-type name) group has at most one row with `default = true`
before the call, the same holds after a single call of
`GetDashboardTemplate`, `UpdateDashboardTemplate`, `CopyDashboardTemplate`,
`DeleteTemplate` or `ChangeDefaultTemplate`, for every argument and every
fault schedule, that is whether the call returns nil or an error. -/
theorem single_default_preserved (fail : Nat → Option Error) (reg : Registry)
    (isValid : Validator) (db : DB) (userId templateId : Nat) (dashboard : String)
    (input : DashboardTemplate) (hwf : db.WF) (hinv : db.SingleDefault) :
    (GetDashboardTemplate fail reg db userId dashboard).db.SingleDefault
    ∧ (UpdateDashboardTemplate fail isValid db templateId userId input).db.SingleDefault
    ∧ (CopyDashboardTemplate fail db userId templateId).db.SingleDefault
    ∧ (DeleteTemplate fail db userId templateId).db.SingleDefault
    ∧ (ChangeDefaultTemplate fail db userId templateId).db.SingleDefault := by
  refine ⟨?_, ?_, ?_, ?_, ?_⟩
  · rcases get_db fail reg db userId dashboard with h | ⟨hgroup, h⟩
    · rw [h]
      exact hinv
    · rw [h]
      exact singleDefault_append_seed db.rows db.nextID _ _ hgroup hinv
  · rcases update_db fail isValid db templateId userId input with h | ⟨tc, h⟩
    · rw [h]
      exact hinv
    · rw [h]
      apply singleDefault_map db.rows db.nextID _ _ _ hinv
      intro r
      by_cases hid : r.ID = templateId <;>
        simp [hid, mergeNonZero, zeroDashboardTemplate]
  · rcases copy_db fail db userId templateId with h | ⟨new, hflag, _, h⟩
    · rw [h]
      exact hinv
    · rw [h]
      exact singleDefault_append_plain db.rows db.nextID _ new hflag hinv
  · rcases delete_db fail db userId templateId with h | h
    · rw [h]
      exact hinv
    · rw [h]
      exact singleDefault_filter db.rows db.nextID _ _ hinv
  · rcases change_default_db fail db userId templateId hwf with
      ⟨_, h⟩ | ⟨t, hmem, hid, hown, ⟨_, h⟩ | ⟨_, h⟩⟩
    · rw [h]
      exact hinv
    · rw [h]
      apply singleDefault_map db.rows db.nextID _ _ _ hinv
      intro r
      by_cases hm : matchesUserName userId t.TemplateBase.Name r = true <;>
        simp [clearedRow, hm]
    · rw [h]
      subst hid
      subst hown
      exact singleDefault_switched db hwf t hmem db.nextID hinv

theorem sampleDB2_singleDefault : sampleDB2.SingleDefault := by
  intro u n
  simp only [DB.defaults, sampleDB2, sampleRow, matchesUserName]
  by_cases h7 : u = 7 <;> by_cases h8 : u = 8 <;> by_cases hn : n = "landingPage" <;>
    simp [List.filter_cons, h7, h8, hn, eq_comm]

/-- Witness of claim C1 on the three-row store: user 7 switches the default to
row 2. -/
theorem single_default_preserved_witness :
    sampleDB2.WF ∧ sampleDB2.SingleDefault
    ∧ (ChangeDefaultTemplate noFault sampleDB2 7 2).db.SingleDefault :=
  ⟨sampleDB2_wf, sampleDB2_singleDefault,
    (single_default_preserved noFault sampleRegistry acceptAll sampleDB2 7 2 "landingPage"
      sampleRow sampleDB2_wf sampleDB2_singleDefault).2.2.2.2⟩

/-! ## Primary keys -/

theorem wf_append (db : DB) (new : DashboardTemplate) (hwf : db.WF) (hid : new.ID = db.nextID) :
    DB.WF ⟨db.rows ++ [new], db.nextID + 1⟩ := by
  obtain ⟨hnd, hpos, hb⟩ := hwf
  refine ⟨?_, Nat.succ_pos _, ?_⟩
  · simp only [List.map_append, List.map_cons, List.map_nil]
    rw [List.nodup_append]
    refine ⟨hnd, List.nodup_singleton _, ?_⟩
    intro a ha hb2
    rw [List.mem_singleton] at hb2
    obtain ⟨r, hr, hra⟩ := List.mem_map.mp ha
    have := (hb r hr).2
    omega
  · intro r hr
    rcases List.mem_append.mp hr with h | h
    · have := hb r h
      exact ⟨this.1, Nat.lt_succ_of_lt this.2⟩
    · rw [List.mem_singleton] at h
      subst h
      simp only
      omega

theorem wf_map (db : DB) (g : DashboardTemplate → DashboardTemplate) (hwf : db.WF)
    (hg : ∀ r, (g r).ID = r.ID) : DB.WF ⟨db.rows.map g, db.nextID⟩ := by
  obtain ⟨hnd, hpos, hb⟩ := hwf
  have hids : (db.rows.map g).map (fun r => r.ID) = db.rows.map (fun r => r.ID) := by
    rw [List.map_map]
    apply List.map_congr_left
    intro r _
    exact hg r
  refine ⟨?_, hpos, ?_⟩
  · simp only
    rw [hids]
    exact hnd
  · intro r hr
    obtain ⟨r0, hr0, hrr⟩ := List.mem_map.mp hr
    rw [← hrr, hg r0]
    exact hb r0 hr0

theorem wf_filter (db : DB) (q : DashboardTemplate → Bool) (hwf : db.WF) :
    DB.WF ⟨db.rows.filter q, db.nextID⟩ := by
  obtain ⟨hnd, hpos, hb⟩ := hwf
  refine ⟨?_, hpos, ?_⟩
  · exact hnd.sublist ((List.filter_sublist db.rows).map _)
  · intro r hr
    exact hb r (List.mem_filter.mp hr).1

/-- Primary-key well-formedness is kept by every call of the service, so it
holds in every store the service can reach from a well-formed one. -/
theorem wf_preserved (fail : Nat → Option Error) (reg : Registry)
    (isValid : Validator) (db : DB) (userId templateId : Nat) (dashboard : String)
    (input : DashboardTemplate) (hwf : db.WF) :
    (GetDashboardTemplate fail reg db userId dashboard).db.WF
    ∧ (UpdateDashboardTemplate fail isValid db templateId userId input).db.WF
    ∧ (CopyDashboardTemplate fail db userId templateId).db.WF
    ∧ (DeleteTemplate fail db userId templateId).db.WF
    ∧ (ChangeDefaultTemplate fail db userId templateId).db.WF := by
  refine ⟨?_, ?_, ?_, ?_, ?_⟩
  · rcases get_db fail reg db userId dashboard with h | ⟨_, h⟩
    · rw [h]
      exact hwf
    · rw [h]
      exact wf_append db _ hwf rfl
  · rcases update_db fail isValid db templateId userId input with h | ⟨tc, h⟩
    · rw [h]
      exact hwf
    · rw [h]
      apply wf_map db _ hwf
      intro r
      by_cases hid : r.ID = templateId <;>
        simp [hid, mergeNonZero, zeroDashboardTemplate]
  · rcases copy_db fail db userId templateId with h | ⟨new, _, hid, h⟩
    · rw [h]
      exact hwf
    · rw [h]
      exact wf_append db new hwf hid
  · rcases delete_db fail db userId templateId with h | h
    · rw [h]
      exact hwf
    · rw [h]
      exact wf_filter db _ hwf
  · rcases change_default_db fail db userId templateId hwf with
      ⟨_, h⟩ | ⟨t, _, _, _, ⟨_, h⟩ | ⟨_, h⟩⟩
    · rw [h]
      exact hwf
    · rw [h]
      apply wf_map db _ hwf
      intro r
      unfold clearedRow
      split <;> rfl
    · rw [h]
      exact wf_map db _ hwf (fun r => switchedRow_ID _ _ _ r)

/-! ## Store failures -/

theorem get_failure (fail : Nat → Option Error) (reg : Registry) (db : DB)
    (userId : Nat) (dashboard : String) (k : Nat) (e : Error) (hfail : fail k = some e)
    (hk : k < (GetDashboardTemplate fail reg db userId dashboard).log.length) :
    (GetDashboardTemplate fail reg db userId dashboard).log.length = k + 1
    ∧ (GetDashboardTemplate fail reg db userId dashboard).err = some e := by
  by_cases hne : dashboard = ""
  · simp only [GetDashboardTemplate, GetAllUserDashboardTemplates, hne, if_true,
      List.length_singleton] at hk ⊢
    have hk0 : k = 0 := by omega
    subst hk0
    simp [hfail, exec_some]
  · cases hq : fail 0 with
    | some e0 =>
        simp only [GetDashboardTemplate, GetUserDashboardTemplate, hne, hq, exec_some] at hk ⊢
        simp only [if_false, true_and, ne_eq, reduceCtorEq, not_false_eq_true, if_true,
          List.length_singleton] at hk ⊢
        have hk0 : k = 0 := by omega
        subst hk0
        rw [hq] at hfail
        exact ⟨rfl, hfail⟩
    | none =>
        cases hrs : db.rows.filter (matchesUserName userId dashboard) with
        | nil =>
            simp [GetDashboardTemplate, GetUserDashboardTemplate, hne, hq, exec_none, DB.run,
              hrs] at hk ⊢
            have hk1 : k = 1 := by
              rcases Nat.lt_or_ge k 1 with h | h
              · have hk0 : k = 0 := by omega
                subst hk0
                rw [hq] at hfail
                exact absurd hfail (by simp)
              · omega
            subst hk1
            simp [hfail, exec_some]
        | cons a tl =>
            simp [GetDashboardTemplate, GetUserDashboardTemplate, hne, hq, exec_none, DB.run,
              hrs] at hk ⊢
            subst hk
            rw [hq] at hfail
            exact absurd hfail (by simp)

theorem copy_failure (fail : Nat → Option Error) (db : DB) (accountId id : Nat)
    (k : Nat) (e : Error) (hfail : fail k = some e)
    (hk : k < (CopyDashboardTemplate fail db accountId id).log.length) :
    (CopyDashboardTemplate fail db accountId id).log.length = k + 1
    ∧ (k = 0 → (CopyDashboardTemplate fail db accountId id).err = some Error.ErrRecordNotFound)
    ∧ (k ≠ 0 → (CopyDashboardTemplate fail db accountId id).err = some e) := by
  cases hq : fail 0 with
  | some e0 =>
      simp [CopyDashboardTemplate, hq, exec_some] at hk ⊢
      exact ⟨hk, fun h => absurd hk h⟩
  | none =>
      have hk0 : k ≠ 0 := by
        intro h
        subst h
        rw [hq] at hfail
        exact absurd hfail (by simp)
      rcases lookup_cases db id with h0 | ⟨t, tl, hsrc, _, _⟩
      · simp [CopyDashboardTemplate, hq, exec_none, DB.run, h0] at hk
        exact absurd hk hk0
      · simp [CopyDashboardTemplate, hq, exec_none, DB.run, hsrc] at hk ⊢
        have hk1 : k = 1 := by omega
        subst hk1
        simp [hfail, exec_some]

theorem update_failure (fail : Nat → Option Error) (isValid : Validator) (db : DB)
    (templateId userId : Nat) (input : DashboardTemplate)
    (k : Nat) (e : Error) (hfail : fail k = some e)
    (hk : k < (UpdateDashboardTemplate fail isValid db templateId userId input).log.length) :
    (UpdateDashboardTemplate fail isValid db templateId userId input).log.length = k + 1
    ∧ (k = 0 → (UpdateDashboardTemplate fail isValid db templateId userId input).err
        = some Error.ErrRecordNotFound) := by
  cases hq : fail 0 with
  | some e0 =>
      simp [UpdateDashboardTemplate, hq, exec_some] at hk ⊢
      exact hk
  | none =>
      have hk0 : k ≠ 0 := by
        intro h
        subst h
        rw [hq] at hfail
        exact absurd hfail (by simp)
      refine ⟨?_, fun h => absurd h hk0⟩
      rcases lookup_cases db templateId with h0 | ⟨t, tl, hsrc, _, _⟩
      · simp [UpdateDashboardTemplate, hq, exec_none, DB.run, h0] at hk
        exact absurd hk hk0
      · by_cases hown : t.UserIdentityID = userId
        · cases hloop : updateLoop isValid input.TemplateConfig templateConfigFields
              input.TemplateConfig with
          | error e1 =>
              simp [UpdateDashboardTemplate, hq, exec_none, DB.run, hsrc, hown, hloop] at hk
              exact absurd hk hk0
          | ok tc =>
              simp [UpdateDashboardTemplate, hq, exec_none, DB.run, hsrc, hown, hloop] at hk ⊢
              omega
        · simp [UpdateDashboardTemplate, hq, exec_none, DB.run, hsrc, hown] at hk
          exact absurd hk hk0

theorem delete_failure (fail : Nat → Option Error) (db : DB) (accountId id : Nat)
    (k : Nat) (e : Error) (hfail : fail k = some e)
    (hk : k < (DeleteTemplate fail db accountId id).log.length) :
    (DeleteTemplate fail db accountId id).log.length = k + 1
    ∧ (k = 0 → (DeleteTemplate fail db accountId id).err = some Error.ErrRecordNotFound) := by
  cases hq : fail 0 with
  | some e0 =>
      simp [DeleteTemplate, hq, exec_some] at hk ⊢
      exact hk
  | none =>
      have hk0 : k ≠ 0 := by
        intro h
        subst h
        rw [hq] at hfail
        exact absurd hfail (by simp)
      refine ⟨?_, fun h => absurd h hk0⟩
      rcases lookup_cases db id with h0 | ⟨t, tl, hsrc, _, _⟩
      · simp [DeleteTemplate, hq, exec_none, DB.run, h0] at hk
        exact absurd hk hk0
      · by_cases hown : t.UserIdentityID = accountId
        · simp [DeleteTemplate, hq, exec_none, DB.run, hsrc, hown] at hk ⊢
          omega
        · simp [DeleteTemplate, hq, exec_none, DB.run, hsrc, hown] at hk
          exact absurd hk hk0

theorem change_default_failure (fail : Nat → Option Error) (db : DB) (accountId id : Nat)
    (k : Nat) (e : Error) (hfail : fail k = some e)
    (hk : k < (ChangeDefaultTemplate fail db accountId id).log.length) :
    (ChangeDefaultTemplate fail db accountId id).log.length = k + 1
    ∧ (k = 0 → (ChangeDefaultTemplate fail db accountId id).err
        = some Error.ErrRecordNotFound)
    ∧ (k ≠ 0 → (ChangeDefaultTemplate fail db accountId id).err = some e) := by
  cases hq : fail 0 with
  | some e0 =>
      simp [ChangeDefaultTemplate, hq, exec_some] at hk ⊢
      exact ⟨hk, fun h => absurd hk h⟩
  | none =>
      have hk0 : k ≠ 0 := by
        intro h
        subst h
        rw [hq] at hfail
        exact absurd hfail (by simp)
      rcases lookup_cases db id with h0 | ⟨t, tl, hsrc, _, _⟩
      · simp [ChangeDefaultTemplate, hq, exec_none, DB.run, h0] at hk
        exact absurd hk hk0
      · by_cases hown : t.UserIdentityID = accountId
        · cases hb : fail 1 with
          | some e1 =>
              simp [ChangeDefaultTemplate, hq, hb, exec_none, exec_some, DB.run, hsrc,
                hown] at hk ⊢
              have hk1 : k = 1 := by omega
              subst hk1
              rw [hb] at hfail
              simp only [Option.some.injEq] at hfail
              simp [hfail]
          | none =>
              have hk1 : k ≠ 1 := by
                intro h
                subst h
                rw [hb] at hfail
                exact absurd hfail (by simp)
              simp [ChangeDefaultTemplate, hq, hb, exec_none, DB.run, hsrc, hown] at hk ⊢
              have hk2 : k = 2 := by omega
              subst hk2
              simp [hfail, exec_some]
        · simp [ChangeDefaultTemplate, hq, exec_none, DB.run, hsrc, hown] at hk
          exact absurd hk hk0

/-- Claim C8, as stated, fails for a failing lookup by id.  The lookup of
`UpdateDashboardTemplate` is issued and fails with a store error; the call
returns `gorm.ErrRecordNotFound`, which is not that error. -/
theorem lookup_failure_is_not_returned :
    failAt 0 (Error.other 500) 0 = some (Error.other 500)
    ∧ (UpdateDashboardTemplate (failAt 0 (Error.other 500)) acceptAll sampleDB 1 7
        sampleRow).log = [Stmt.FindByID 1]
    ∧ (UpdateDashboardTemplate (failAt 0 (Error.other 500)) acceptAll sampleDB 1 7
        sampleRow).err = some Error.ErrRecordNotFound
    ∧ (UpdateDashboardTemplate (failAt 0 (Error.other 500)) acceptAll sampleDB 1 7
        sampleRow).err ≠ some (Error.other 500) := by
  decide

/-- Claim C8, amended.  For every service operation and every store statement
it issues (the `k`-th statement of the call, `k < log.length`): if that
statement fails with error `e`, the operation issues no further statement.
`GetDashboardTemplate` then returns exactly `e`.  For
`UpdateDashboardTemplate`, `CopyDashboardTemplate`, `DeleteTemplate` and
`ChangeDefaultTemplate` a failing lookup by id (`k = 0`) is returned as
`gorm.ErrRecordNotFound`; a failing later statement of
`CopyDashboardTemplate` (the create) or of `ChangeDefaultTemplate` (either
update) is returned as exactly `e`. -/
theorem store_failure_ends_call (fail : Nat → Option Error) (reg : Registry)
    (isValid : Validator) (db : DB) (userId templateId : Nat) (dashboard : String)
    (input : DashboardTemplate) (k : Nat) (e : Error) (hfail : fail k = some e) :
    (k < (GetDashboardTemplate fail reg db userId dashboard).log.length →
      (GetDashboardTemplate fail reg db userId dashboard).log.length = k + 1
      ∧ (GetDashboardTemplate fail reg db userId dashboard).err = some e)
    ∧ (k < (UpdateDashboardTemplate fail isValid db templateId userId input).log.length →
      (UpdateDashboardTemplate fail isValid db templateId userId input).log.length = k + 1
      ∧ (k = 0 → (UpdateDashboardTemplate fail isValid db templateId userId input).err
          = some Error.ErrRecordNotFound))
    ∧ (k < (CopyDashboardTemplate fail db userId templateId).log.length →
      (CopyDashboardTemplate fail db userId templateId).log.length = k + 1
      ∧ (k = 0 → (CopyDashboardTemplate fail db userId templateId).err
          = some Error.ErrRecordNotFound)
      ∧ (k ≠ 0 → (CopyDashboardTemplate fail db userId templateId).err = some e))
    ∧ (k < (DeleteTemplate fail db userId templateId).log.length →
      (DeleteTemplate fail db userId templateId).log.length = k + 1
      ∧ (k = 0 → (DeleteTemplate fail db userId templateId).err
          = some Error.ErrRecordNotFound))
    ∧ (k < (ChangeDefaultTemplate fail db userId templateId).log.length →
      (ChangeDefaultTemplate fail db userId templateId).log.length = k + 1
      ∧ (k = 0 → (ChangeDefaultTemplate fail db userId templateId).err
          = some Error.ErrRecordNotFound)
      ∧ (k ≠ 0 → (ChangeDefaultTemplate fail db userId templateId).err = some e)) :=
  ⟨get_failure fail reg db userId dashboard k e hfail,
    update_failure fail isValid db templateId userId input k e hfail,
    copy_failure fail db userId templateId k e hfail,
    delete_failure fail db userId templateId k e hfail,
    change_default_failure fail db userId templateId k e hfail⟩

/-- Witness of the amended claim C8: the second update of
`ChangeDefaultTemplate` (statement 2) fails. -/
theorem store_failure_ends_call_witness :
    failAt 2 (Error.other 500) 2 = some (Error.other 500)
    ∧ (ChangeDefaultTemplate (failAt 2 (Error.other 500)) sampleDB2 7 2).log.length = 3
    ∧ (ChangeDefaultTemplate (failAt 2 (Error.other 500)) sampleDB2 7 2).err
        = some (Error.other 500) :=
  have h := (store_failure_ends_call (failAt 2 (Error.other 500)) sampleRegistry acceptAll
    sampleDB2 7 2 "landingPage" sampleRow 2 (Error.other 500) rfl).2.2.2.2 (by decide)
  ⟨rfl, h.1, h.2.2 (by decide)⟩

/-- What `DeleteTemplate` returns when its removal statement fails: the error
of the lookup, which is nil, and the row stays in the store. -/
theorem delete_write_failure (fail : Nat → Option Error) (db : DB) (t : DashboardTemplate)
    (e : Error) (hwf : db.WF) (ht : t ∈ db.rows) (hfind : fail 0 = none)
    (hwrite : fail 1 = some e) :
    (DeleteTemplate fail db t.UserIdentityID t.ID).err = none
    ∧ (DeleteTemplate fail db t.UserIdentityID t.ID).db = db := by
  have hf := find_by_id db t hwf ht
  simp [DeleteTemplate, hfind, hwrite, exec_none, exec_some, DB.run, hf]

/-- What `UpdateDashboardTemplate` returns when its update statement fails on
a valid input: a nil error, and the stored config is not written. -/
theorem update_write_failure (fail : Nat → Option Error) (isValid : Validator) (db : DB)
    (t input : DashboardTemplate) (e : Error)
    (hwf : db.WF) (ht : t ∈ db.rows) (hfind : fail 0 = none) (hwrite : fail 1 = some e)
    (hvalid : ∀ f, ∀ gi ∈ input.TemplateConfig.items f, isValid gi f = none) :
    (UpdateDashboardTemplate fail isValid db t.ID t.UserIdentityID input).err = none
    ∧ (UpdateDashboardTemplate fail isValid db t.ID t.UserIdentityID input).db = db := by
  have hf := find_by_id db t hwf ht
  have hloop := updateLoop_valid isValid input.TemplateConfig templateConfigFields
    (fun f _ => hvalid f)
  simp [UpdateDashboardTemplate, hfind, hwrite, exec_none, exec_some, DB.run, hf, hloop]

end DashboardTemplateService
